import Mathlib

/-!
Verification development for the MERIDIAN backend risk engine
(`services/financial_normalization.py`, `services/risk_engine.py`, and the
analysis endpoints of `main.py`).

Modelling conventions:
* Python floats are modelled as exact rationals (`ℚ`); `round(x, k)` and the
  f-string fixed-point formats `:.kf` are modelled as round-half-to-even on
  the exact rational value.
* `None`-able Python values are `Option`s; Python truthiness (`x or d`,
  `if x:`) is modelled explicitly (`none` and `""` and `0` are falsy).
* SQLAlchemy tables are lists inside a `DB` structure; `query(...).first()`
  is `List.find?`, `.all()` is `List.filter`, `.count()` is `List.length`,
  `.limit(n)` is `List.take n`.
* `datetime.utcnow()` is an abstract clock value (`now : ℕ`) threaded into
  the operations that store timestamps.
-/

/-- Python `s or default` for an optional string: `None` and `""` are falsy. -/
def pyOrStr (s : Option String) (d : String) : String :=
  match s with
  | none => d
  | some t => if t = "" then d else t

/-- Python `s or default` for a plain string: `""` is falsy. -/
def pyOrS (s : String) (d : String) : String :=
  if s = "" then d else s

/-- Python `x or default` for an optional number: `None` and `0` are falsy. -/
def pyOrQ (x : Option ℚ) (d : ℚ) : ℚ :=
  match x with
  | none => d
  | some v => if v = 0 then d else v

/-- Python truthiness of an optional string (`None` and `""` are falsy). -/
def pyStrTruthy (s : Option String) : Prop :=
  match s with
  | none => False
  | some t => t ≠ ""

instance (s : Option String) : Decidable (pyStrTruthy s) := by
  unfold pyStrTruthy
  cases s <;> infer_instance

/-- ASCII `str.lower` on a character. -/
def charLower (c : Char) : Char :=
  if 'A' ≤ c ∧ c ≤ 'Z' then Char.ofNat (c.toNat + 32) else c

/-- ASCII `str.upper` on a character. -/
def charUpper (c : Char) : Char :=
  if 'a' ≤ c ∧ c ≤ 'z' then Char.ofNat (c.toNat - 32) else c

/-- Python `s.lower()` (ASCII; also models SQL `func.lower`). -/
def strLower (s : String) : String := String.mk (s.data.map charLower)

/-- Python `s.upper()` (ASCII). -/
def strUpper (s : String) : String := String.mk (s.data.map charUpper)

/-- Whitespace for Python `str.strip()`. -/
def isSpc (c : Char) : Bool := c = ' ' || c = '\t' || c = '\n' || c = '\r'

/-- Python `s.strip()`. -/
def strTrim (s : String) : String :=
  String.mk (((s.data.dropWhile isSpc).reverse.dropWhile isSpc).reverse)

/-- Python `round(x)` (banker's rounding, half to even) on an exact rational. -/
def pyRoundInt (x : ℚ) : ℤ :=
  let f := ⌊x⌋
  if x - f < 1 / 2 then f
  else if (1 : ℚ) / 2 < x - f then f + 1
  else if 2 ∣ f then f else f + 1

/-- Python `round(x, prec)` on an exact rational. -/
def pyRound (prec : ℕ) (x : ℚ) : ℚ :=
  (pyRoundInt (x * (10 : ℚ) ^ prec) : ℚ) / (10 : ℚ) ^ prec

/-- Left-pad a digit string with zeros to length `k`. -/
def padZeros (k : ℕ) (s : String) : String :=
  if s.length < k then String.mk (List.replicate (k - s.length) '0') ++ s else s

/-- Python f-string fixed-point format `:.precf` of an exact rational. -/
def fmtFixed (prec : ℕ) (x : ℚ) : String :=
  let scaled : ℤ := pyRoundInt (x * (10 : ℚ) ^ prec)
  let sign := if scaled < 0 then "-" else ""
  let m := scaled.natAbs
  if prec = 0 then sign ++ toString m
  else sign ++ toString (m / 10 ^ prec) ++ "." ++ padZeros prec (toString (m % 10 ^ prec))

/-- Insert `','` after every third character of a reversed digit list. -/
def groupRev : List Char → List Char
  | a :: b :: c :: d :: rest => a :: b :: c :: ',' :: groupRev (d :: rest)
  | l => l

/-- Python f-string format `:,.0f`: round to an integer and group digits by thousands. -/
def fmtCommaInt (x : ℚ) : String :=
  let scaled : ℤ := pyRoundInt x
  let sign := if scaled < 0 then "-" else ""
  sign ++ String.mk ((groupRev (toString scaled.natAbs).data.reverse).reverse)

/-! ## financial_normalization.py -/

/-- Default of the `INR_PER_USD` environment variable (`"83.0"`). -/
def INR_PER_USD : ℚ := 83

/-- Default of the `EUR_TO_USD` environment variable (`"1.08"`). -/
def EUR_TO_USD : ℚ := 108 / 100

/-- `CRORE_TO_USD_MILLIONS = (1e7 / INR_PER_USD) / 1e6`. -/
def CRORE_TO_USD_MILLIONS : ℚ := ((10 : ℚ) ^ 7 / INR_PER_USD) / (10 : ℚ) ^ 6

/-- `to_usd_millions(value, currency, unit_scale)` from
`financial_normalization.py`: convert revenue to USD millions. -/
def to_usd_millions (value : Option ℚ) (currency : Option String) (unit_scale : Option String) : ℚ :=
  match value with
  | none => 0
  | some v =>
    if v ≤ 0 then 0
    else
      let cur := strUpper (pyOrStr currency "USD")
      let scale := strLower (pyOrStr unit_scale "millions")
      if cur = "INR" ∧ scale = "crores" then v * CRORE_TO_USD_MILLIONS
      else if cur = "USD" then
        if scale = "billions" then v * 1000
        else if scale = "millions" then v
        else if scale = "thousands" then v / 1000
        else if scale = "crores" then v  -- USD crores not standard; treat as millions
        else v  -- falls through the USD block to the default return
      else if cur = "EUR" then
        if scale = "billions" then v * 1000 * EUR_TO_USD
        else if scale = "millions" then v * EUR_TO_USD
        else if scale = "thousands" then v / 1000 * EUR_TO_USD
        else v  -- falls through the EUR block to the default return
      else v  -- Default: assume millions

/-- `format_loss_usd(loss_usd_m)`: format a loss in USD with appropriate scale. -/
def format_loss_usd (loss_usd_m : Option ℚ) : String :=
  match loss_usd_m with
  | none => "$0"
  | some l =>
    if l < 0 then "$0"
    else if 1000 ≤ l then "$" ++ fmtFixed 1 (l / 1000) ++ "B"
    else if 1 ≤ l then "$" ++ fmtFixed 0 l ++ "M"
    else if 1 / 1000 ≤ l then "$" ++ fmtFixed 0 (l * 1000) ++ "K"
    else "$" ++ fmtFixed 2 l ++ "M"

/-- `usd_millions_to_inr_crores(usd_m)`: convert USD millions to INR crores for display. -/
def usd_millions_to_inr_crores (usd_m : Option ℚ) : ℚ :=
  match usd_m with
  | none => 0
  | some u => if u ≤ 0 then 0 else u * (10 : ℚ) ^ 6 * INR_PER_USD / (10 : ℚ) ^ 7

/-- `format_loss_with_inr(loss_usd_m)`: format as USD plus the INR-crore equivalent. -/
def format_loss_with_inr (loss_usd_m : Option ℚ) : String :=
  let usdStr := format_loss_usd loss_usd_m
  let inrCr := usd_millions_to_inr_crores loss_usd_m
  if 1 / 100 ≤ inrCr then
    let inrStr :=
      if 1 ≤ inrCr then "₹" ++ fmtCommaInt inrCr ++ " Cr"
      else "₹" ++ fmtFixed 2 inrCr ++ " Cr"
    usdStr ++ " (" ++ inrStr ++ ")"
  else usdStr

/-- `validate_large_pharma_loss(revenue_usd_m, loss_min_usd_m)`: flag a large
company whose estimated loss is under one million USD. Returns `(valid, message)`. -/
def validate_large_pharma_loss (revenue_usd_m loss_min_usd_m : Option ℚ) : Bool × String :=
  match revenue_usd_m, loss_min_usd_m with
  | none, _ => (true, "")
  | _, none => (true, "")
  | some r, some l =>
    if r < 0 then (true, "")
    else if l < 0 then (true, "")
    else if 1000 ≤ r ∧ l < 1 then
      (false,
        "Validation flag: Revenue is $" ++ fmtFixed 0 r ++
        "M (large pharma) but estimated loss is below $1M. Result may be unrealistic; consider data quality or impact assumptions.")
    else (true, "")

/-! ## Data model (`models.py`), restricted to the fields the risk engine reads -/

/-- `Event`: a processed intelligence signal.  `event_type` and `source` are
non-nullable columns; `company` and `drug_name` are nullable. -/
structure Event where
  id : ℕ
  eventType : String
  source : String
  company : Option String
  drugName : Option String
deriving Repr, DecidableEq

/-- `FinancialProfile`: per-company financial data.  `annual_revenue` and
`drug_revenue_share` are non-nullable `Float` columns; `currency`,
`unit_scale` and `market` are nullable strings. -/
structure FinancialProfile where
  company : String
  annualRevenue : ℚ
  drugRevenueShare : ℚ
  currency : Option String
  unitScale : Option String
  market : Option String
deriving Repr, DecidableEq

/-- `HistoricalEvent`: the read-only historical corpus. -/
structure HistoricalEvent where
  company : String
  eventType : String
  severityScore : Option ℚ
  daysToAction : Option ℤ
deriving Repr, DecidableEq

/-- `RegulatoryAction`: used only as a per-company count signal. -/
structure RegulatoryAction where
  company : String
deriving Repr, DecidableEq

/-- The semantic payload of `get_calculation_breakdown` from
`financial_normalization.py`.  The Python function renders four prose strings
from exactly these inputs; no modelled operation inspects the prose, so the
inputs are retained in place of the rendered text.  The final field models
`"validation_message": validation_message or None`. -/
structure Breakdown where
  company : String
  originalRevenue : ℚ
  currency : String
  unitScale : String
  market : String
  revenueUsdM : ℚ
  impactPercentage : ℚ
  riskProbability : ℚ
  lossMinUsdM : ℚ
  lossMaxUsdM : ℚ
  validationPassed : Bool
  validationMessage : Option String
deriving Repr, DecidableEq

/-- `get_calculation_breakdown(...)`. -/
def get_calculation_breakdown (company : String) (originalRevenue : ℚ)
    (currency unitScale market : String)
    (revenueUsdM impactPercentage riskProbability lossMinUsdM lossMaxUsdM : ℚ)
    (validationPassed : Bool) (validationMessage : String) : Breakdown :=
  { company, originalRevenue, currency, unitScale, market, revenueUsdM,
    impactPercentage, riskProbability, lossMinUsdM, lossMaxUsdM, validationPassed,
    validationMessage := if validationMessage = "" then none else some validationMessage }

/-- The stored `explanation_json` of a `RiskModel` row, as the structured value
produced by `build_explanation` / consumed by `json.loads` in `main.py`.
The prose basis fields (`financial_basis`, `risk_basis`, `timeline_basis`,
`confidence_basis`) are never inspected by a modelled operation and are
elided; `market` and `calculation_breakdown` are the fields the cached-read
path of `get_signal_analysis` inspects.  A row whose stored JSON is absent or
unparsable corresponds to the value with both fields `none`. -/
structure Explanation where
  market : Option String
  calculationBreakdown : Option Breakdown
deriving Repr, DecidableEq

/-- `build_explanation(...)`: assembles the explanation bundle (prose fields
elided, see `Explanation`). -/
def build_explanation (market : Option String) (calculationBreakdown : Option Breakdown) :
    Explanation :=
  { market, calculationBreakdown }

/-- `RiskModel`: the cached per-signal analysis row.  `updated_at`
(`datetime.utcnow()`) is an abstract clock value. -/
structure RiskModel where
  signalId : ℕ
  probability : ℚ
  lossMin : ℚ
  lossMax : ℚ
  expectedDaysMin : Option ℤ
  expectedDaysMax : Option ℤ
  confidenceScore : ℚ
  explanation : Explanation
  updatedAt : ℕ
deriving Repr, DecidableEq

/-- The database session: one list per table the risk engine touches. -/
structure DB where
  events : List Event
  profiles : List FinancialProfile
  historicalEvents : List HistoricalEvent
  regulatoryActions : List RegulatoryAction
  riskModels : List RiskModel
deriving Repr, DecidableEq

/-- The demo-company dictionary of `services/demo_company.py`
(`SUN_PHARMA_PROFILE`), restricted to the keys the risk engine reads.
`Option` fields model `dict.get` with a default for a missing key. -/
structure DemoProfile where
  companyName : Option String
  annualRevenue : Option ℚ
  currency : Option String
  unitScale : Option String
  market : Option String
deriving Repr, DecidableEq

/-- Environment-dependent configuration: `get_demo_company()` returns `demo`
(the `DEMO_MODE` / `DEMO_COMPANY` selection is folded into this value). -/
structure Config where
  demo : Option DemoProfile
deriving Repr, DecidableEq

/-- `get_demo_company()` from `services/demo_company.py`. -/
def get_demo_company (cfg : Config) : Option DemoProfile := cfg.demo

/-! ## risk_engine.py: estimators -/

/-- Result of one estimator: the `{"status": "insufficient_data", ...}`
dictionary, a success payload, or an uncaught Python exception. -/
inductive EstResult (α : Type) where
  | insufficient (msg : String)
  | ok (payload : α)
  | exn (msg : String)
deriving Repr, DecidableEq

/-- The dictionary produced by `_profile_to_dict`. -/
structure ProfileDict where
  company : String
  annualRevenue : ℚ
  drugRevenueShare : ℚ
  currency : String
  unitScale : String
  market : String
deriving Repr, DecidableEq

/-- `_profile_to_dict(profile)` applied to a DB `FinancialProfile` row.
Each field is read as `getattr(profile, f, None) or profile.get(...)`; when
the attribute value is falsy (`None`, `0`, `""`), the `or` falls through to
`profile.get`, which raises `AttributeError` on an ORM object — modelled by
`none`. -/
def profileToDict (p : FinancialProfile) : Option ProfileDict :=
  if p.company ≠ "" ∧ p.annualRevenue ≠ 0 ∧ p.drugRevenueShare ≠ 0 ∧
      pyStrTruthy p.currency ∧ pyStrTruthy p.unitScale ∧ pyStrTruthy p.market then
    some { company := p.company, annualRevenue := p.annualRevenue,
           drugRevenueShare := p.drugRevenueShare, currency := p.currency.getD "",
           unitScale := p.unitScale.getD "", market := p.market.getD "" }
  else none

/-- Success payload of `FinancialImpactEstimator.estimate_loss` (the
`methodology` sentence is prose rendered from these fields and is elided). -/
structure FinPayload where
  revenueUsdM : ℚ
  impactPct : ℚ
  currency : String
  unitScale : String
  market : String
  originalRevenue : ℚ
  company : String
  drugRevenueShare : ℚ
deriving Repr, DecidableEq

/-- `FinancialImpactEstimator.estimate_loss(signal_id, db)`. -/
def estimate_loss (cfg : Config) (signalId : ℕ) (db : DB) : EstResult FinPayload :=
  match db.events.find? (fun e => e.id == signalId) with
  | none => .insufficient "Event not found"
  | some event =>
    let company := strTrim (pyOrStr event.company "")
    if company = "" then .insufficient "Company not identified for this signal"
    else
      let profileDict : EstResult ProfileDict :=
        match db.profiles.find? (fun p => strLower p.company == strLower company) with
        | some profile =>
          match profileToDict profile with
          | some pd => .ok pd
          | none => .exn "AttributeError in _profile_to_dict"
        | none =>
          match get_demo_company cfg with
          | some demo =>
            if strLower (strTrim (pyOrStr demo.companyName "")) = strLower company then
              .ok { company := pyOrStr demo.companyName company,
                    annualRevenue := pyOrQ demo.annualRevenue 48000,
                    drugRevenueShare := 6 / 100,
                    currency := demo.currency.getD "INR",
                    unitScale := demo.unitScale.getD "crores",
                    market := demo.market.getD "India" }
            else .insufficient ("No financial profile for " ++ company)
          | none => .insufficient ("No financial profile for " ++ company)
      match profileDict with
      | .insufficient m => .insufficient m
      | .exn m => .exn m
      | .ok pd =>
        let originalRevenue := pd.annualRevenue
        let currency := pyOrS pd.currency "USD"
        let unitScale := pyOrS pd.unitScale "millions"
        let market := pyOrS pd.market "US"
        let revenueUsdM := to_usd_millions (some originalRevenue) (some currency) (some unitScale)
        let eventType := strLower event.eventType
        let sameCompany := db.historicalEvents.filter
          (fun h => strLower h.company == strLower company)
        let similar :=
          if sameCompany.isEmpty then
            (db.historicalEvents.filter (fun h => strLower h.eventType == eventType)).take 10
          else sameCompany
        if similar.isEmpty then .insufficient "No historical events for impact estimation"
        else
          let severityScores := similar.filterMap (fun h => h.severityScore)
          let impactPct :=
            if severityScores.isEmpty then (if eventType = "risk" then 8 / 100 else 3 / 100)
            else (severityScores.sum / (severityScores.length : ℚ)) * (15 / 100)
          .ok { revenueUsdM := pyRound 4 revenueUsdM, impactPct := impactPct,
                currency := currency, unitScale := unitScale, market := market,
                originalRevenue := originalRevenue, company := pd.company,
                drugRevenueShare := pd.drugRevenueShare }

/-- Success payload of `RegulatoryRiskEstimator.estimate_probability`: the
probability (rounded to 1 decimal) and the four component scores (rounded to
2 decimals, as in the returned `components` dictionary). -/
structure RegPayload where
  probability : ℚ
  compAdverse : ℚ
  compMedia : ℚ
  compInspections : ℚ
  compPastActions : ℚ
deriving Repr, DecidableEq

/-- `RegulatoryRiskEstimator.estimate_probability(signal_id, db)`. -/
def estimate_probability (signalId : ℕ) (db : DB) : EstResult RegPayload :=
  match db.events.find? (fun e => e.id == signalId) with
  | none => .insufficient "Event not found"
  | some event =>
    let company := strTrim (pyOrStr event.company "")
    if company = "" then .insufficient "Company not identified"
    else
      let adverseCount := (db.historicalEvents.filter (fun h =>
        strLower h.company == strLower company &&
        (strLower h.eventType == "adverse" || strLower h.eventType == "safety"))).length
      let totalHist := (db.historicalEvents.filter (fun h =>
        strLower h.company == strLower company)).length
      let adverseScore : ℚ :=
        if 0 < totalHist then min ((adverseCount : ℚ) / ((max totalHist 1 : ℕ) : ℚ)) 1 else 0
      -- SQL `lower(NULL) = x` is not a match: a NULL company never matches.
      let mediaCount := (db.events.filter (fun e =>
        (match e.company with
         | some c => strLower c == strLower company
         | none => false) &&
        (e.source == "Serper" || e.source == "News"))).length
      let mediaScore : ℚ := min ((mediaCount : ℚ) / 10) 1
      let inspectionCount := (db.historicalEvents.filter (fun h =>
        strLower h.company == strLower company && strLower h.eventType == "inspection")).length
      let inspectionScore : ℚ := min ((inspectionCount : ℚ) / 5) 1
      let actionCount := (db.regulatoryActions.filter (fun a =>
        strLower a.company == strLower company)).length
      let historyScore : ℚ := min ((actionCount : ℚ) / 8) 1
      let riskScore := 30 / 100 * adverseScore + 20 / 100 * mediaScore +
        20 / 100 * inspectionScore + 30 / 100 * historyScore
      let probability := riskScore * 100
      .ok { probability := pyRound 1 probability,
            compAdverse := pyRound 2 adverseScore, compMedia := pyRound 2 mediaScore,
            compInspections := pyRound 2 inspectionScore,
            compPastActions := pyRound 2 historyScore }

/-- Success payload of `TimelinePredictor.predict_days`. -/
structure TimelinePayload where
  expectedDaysMin : ℤ
  expectedDaysMax : ℤ
deriving Repr, DecidableEq

/-- The `days_to_action` sample gathered by `TimelinePredictor.predict_days`
for a given event: rows with non-null `days_to_action`, preferring
same-company matches, falling back to same-event-type matches (cap 20). -/
def timelineSample (event : Event) (db : DB) : List ℤ :=
  let company := strTrim (pyOrStr event.company "")
  let eventType := strLower event.eventType
  let base := db.historicalEvents.filter (fun h => h.daysToAction.isSome)
  let similar :=
    if company ≠ "" then
      let sameCompany := base.filter (fun h => strLower h.company == strLower company)
      if sameCompany.isEmpty then
        (base.filter (fun h => strLower h.eventType == eventType)).take 20
      else sameCompany
    else (base.filter (fun h => strLower h.eventType == eventType)).take 20
  similar.map (fun h => h.daysToAction.getD 0)

/-- Mean of an integer sample, as a rational. -/
def ratMean (l : List ℤ) : ℚ := (l.map (fun d => (d : ℚ))).sum / (l.length : ℚ)

/-- Population variance of an integer sample, as a rational. -/
def ratVariance (l : List ℤ) : ℚ :=
  (l.map (fun d => ((d : ℚ) - ratMean l) ^ 2)).sum / (l.length : ℚ)

/-- Exact integer computation of `int(a + v ** 0.5)` (truncation toward zero)
for rationals `a` and `v ≥ 0`.  Writing `a + √v = (c + √N) / d` with the
integers below, the answer is recovered from `T = Nat.sqrt N` alone; see
`truncAddSqrt_eq`. -/
def truncAddSqrt (a v : ℚ) : ℤ :=
  let N : ℕ := a.den ^ 2 * v.num.toNat * v.den
  let T : ℕ := Nat.sqrt N
  let c : ℤ := a.num * (v.den : ℤ)
  let d : ℤ := (a.den : ℤ) * (v.den : ℤ)
  if 0 ≤ c ∨ c ^ 2 ≤ (N : ℤ) then ⌊((c + T : ℤ) : ℚ) / (d : ℚ)⌋
  else if T ^ 2 = N then ⌈((c + T : ℤ) : ℚ) / (d : ℚ)⌉
  else ⌈((c + T + 1 : ℤ) : ℚ) / (d : ℚ)⌉

/-- Exact integer computation of `int(a - v ** 0.5)` (truncation toward zero)
for rationals `a` and `v ≥ 0`; see `truncSubSqrt_eq`. -/
def truncSubSqrt (a v : ℚ) : ℤ :=
  let N : ℕ := a.den ^ 2 * v.num.toNat * v.den
  let T : ℕ := Nat.sqrt N
  let c : ℤ := a.num * (v.den : ℤ)
  let d : ℤ := (a.den : ℤ) * (v.den : ℤ)
  if 0 ≤ c ∧ (N : ℤ) ≤ c ^ 2 then
    if T ^ 2 = N then ⌊((c - T : ℤ) : ℚ) / (d : ℚ)⌋
    else ⌊((c - T - 1 : ℤ) : ℚ) / (d : ℚ)⌋
  else ⌈((c - T : ℤ) : ℚ) / (d : ℚ)⌉

/-- `TimelinePredictor.predict_days(signal_id, db)`.  The source computes
`std = variance ** 0.5`, `days_min = max(int(avg - std), 1)`,
`days_max = int(avg + std)`; the two truncations are computed exactly by
`truncSubSqrt` / `truncAddSqrt` (theorems `truncSubSqrt_eq`,
`truncAddSqrt_eq`). -/
def predict_days (signalId : ℕ) (db : DB) : EstResult TimelinePayload :=
  match db.events.find? (fun e => e.id == signalId) with
  | none => .insufficient "Event not found"
  | some event =>
    let days := timelineSample event db
    if days.isEmpty then .insufficient "No historical timeline data"
    else
      let avg := ratMean days
      let variance := ratVariance days
      .ok { expectedDaysMin := max (truncSubSqrt avg variance) 1,
            expectedDaysMax := truncAddSqrt avg variance }

/-- `ConfidenceScorer.compute_confidence(signal_id, db, financial_result,
risk_result, timeline_result)`.  The only field of the passed results the
scorer reads is `financial_result.get("status")`; `financialOk` is the value
of `financial_result.get("status") != "insufficient_data"`.  Returns
`(score, band)`. -/
def compute_confidence (signalId : ℕ) (db : DB) (financialOk : Bool) : ℚ × String :=
  match db.events.find? (fun e => e.id == signalId) with
  | none => (0, "Low")
  | some event =>
    let s1 : ℚ :=
      if pyStrTruthy event.company ∧ strTrim (event.company.getD "") ≠ "" then 15 / 100 else 0
    let s2 : ℚ :=
      if pyStrTruthy event.drugName ∧ strTrim (event.drugName.getD "") ≠ "" then 15 / 100 else 0
    let s3 : ℚ := if financialOk then 20 / 100 else 0
    let s4 : ℚ :=
      if pyStrTruthy event.company then
        let histCount := (db.historicalEvents.filter (fun h =>
          strLower h.company == strLower (event.company.getD ""))).length
        if 10 ≤ histCount then 30 / 100
        else if 5 ≤ histCount then 20 / 100
        else if 1 ≤ histCount then 10 / 100
        else 0
      else 0
    let s5 : ℚ :=
      if event.source = "OpenFDA" ∨ event.source = "Serper" ∨ event.source = "CDSCO" then 20 / 100
      else if event.source ≠ "" ∧ strTrim event.source ≠ "" then 10 / 100
      else 0
    let score := s1 + s2 + s3 + s4 + s5
    let band :=
      if 7 / 10 ≤ score then "High" else if 4 / 10 ≤ score then "Medium" else "Low"
    (pyRound 2 score, band)

/-! ## risk_engine.py: orchestrator, and the analysis endpoints of main.py -/

/-- One scenario projection (raw values). -/
structure ScenarioVals where
  label : String
  lossMin : ℚ
  lossMax : ℚ
deriving Repr, DecidableEq

/-- One scenario projection with display strings. -/
structure ScenarioDisplay where
  label : String
  lossMin : ℚ
  lossMax : ℚ
  displayMin : String
  displayMax : String
deriving Repr, DecidableEq

/-- The successful analysis response.  The fresh-compute path fills
`validationPassed` / `validationMessage`; the cached-read path of
`get_signal_analysis` omits them (`none`). -/
structure AnalysisPayload where
  probability : ℚ
  lossMin : ℚ
  lossMax : ℚ
  lossDisplayMin : String
  lossDisplayMax : String
  lossUnit : String
  expectedDaysMin : Option ℤ
  expectedDaysMax : Option ℤ
  confidenceScore : ℚ
  confidenceBand : String
  methodology : Explanation
  calculationBreakdown : Option Breakdown
  scenarioA : ScenarioVals
  scenarioB : ScenarioVals
  scenarioC : ScenarioVals
  scenarioDisplayA : ScenarioDisplay
  scenarioDisplayB : ScenarioDisplay
  scenarioDisplayC : ScenarioDisplay
  validationPassed : Option Bool
  validationMessage : Option String
deriving Repr, DecidableEq

/-- Result of the orchestrator / of an analysis endpoint.  `error` is the
`{"status": "error"}` dictionary, `exn` an uncaught Python exception (surfaced
by the endpoints as HTTP 500). -/
inductive RunResult where
  | error (msg : String)
  | insufficientData (msg : String)
  | ok (payload : AnalysisPayload)
  | exn (msg : String)
deriving Repr, DecidableEq

/-- Upsert of the `risk_models` row keyed by `signal_id`: update the first
matching row in place, else append. -/
def upsertRiskModel (sid : ℕ) (row : RiskModel) : List RiskModel → List RiskModel
  | [] => [row]
  | r :: rs => if r.signalId = sid then row :: rs else r :: upsertRiskModel sid row rs

/-- Market-dependent display selection used throughout `run_risk_engine`. -/
def lossDisplay (showInr : Bool) (l : ℚ) : String :=
  if showInr then format_loss_with_inr (some l) else format_loss_usd (some l)

/-- Scenario display entry built by `run_risk_engine` from a scenario row. -/
def scenarioDisplayOf (showInr : Bool) (s : ScenarioVals) : ScenarioDisplay :=
  { label := s.label, lossMin := s.lossMin, lossMax := s.lossMax,
    displayMin := lossDisplay showInr s.lossMin,
    displayMax := lossDisplay showInr s.lossMax }

/-- The `risk_models` row upserted by `run_risk_engine`'s success path
(the local variables `loss_min_usd_m`, `loss_max_usd_m`, `explanation_json`,
`confidence_result`, `datetime.utcnow()` of the source, factored out so the
row can be named in proofs). -/
def runRowOf (signalId : ℕ) (db : DB) (now : ℕ) (fin : FinPayload) (reg : RegPayload)
    (tl : TimelinePayload) : RiskModel :=
  let riskProb := reg.probability / 100
  let lossBase := fin.revenueUsdM * fin.drugRevenueShare * fin.impactPct * riskProb
  let lossMinUsdM := pyRound 4 (lossBase * (8 / 10))
  let lossMaxUsdM := pyRound 4 (lossBase * (12 / 10))
  let validation := validate_large_pharma_loss (some fin.revenueUsdM) (some lossMinUsdM)
  let market := pyOrS fin.market "US"
  let breakdown := get_calculation_breakdown fin.company fin.originalRevenue
    fin.currency fin.unitScale market fin.revenueUsdM fin.impactPct riskProb
    lossMinUsdM lossMaxUsdM validation.1 validation.2
  { signalId := signalId, probability := reg.probability,
    lossMin := lossMinUsdM, lossMax := lossMaxUsdM,
    expectedDaysMin := some tl.expectedDaysMin,
    expectedDaysMax := some tl.expectedDaysMax,
    confidenceScore := (compute_confidence signalId db true).1,
    explanation := build_explanation (some market) (some breakdown),
    updatedAt := now }

/-- The response payload returned by `run_risk_engine`'s success path
(factored out of the orchestrator so it can be named in proofs). -/
def runPayloadOf (signalId : ℕ) (db : DB) (fin : FinPayload) (reg : RegPayload)
    (tl : TimelinePayload) : AnalysisPayload :=
  let riskProb := reg.probability / 100
  let lossBase := fin.revenueUsdM * fin.drugRevenueShare * fin.impactPct * riskProb
  let lossMinUsdM := pyRound 4 (lossBase * (8 / 10))
  let lossMaxUsdM := pyRound 4 (lossBase * (12 / 10))
  let validation := validate_large_pharma_loss (some fin.revenueUsdM) (some lossMinUsdM)
  let market := pyOrS fin.market "US"
  let showInr := strLower market == "india"
  let breakdown := get_calculation_breakdown fin.company fin.originalRevenue
    fin.currency fin.unitScale market fin.revenueUsdM fin.impactPct riskProb
    lossMinUsdM lossMaxUsdM validation.1 validation.2
  let confidence := compute_confidence signalId db true
  let scenA : ScenarioVals :=
    { label := "Do nothing", lossMin := pyRound 4 lossMinUsdM,
      lossMax := pyRound 4 lossMaxUsdM }
  let scenB : ScenarioVals :=
    { label := "Act in 30 days", lossMin := pyRound 4 (lossMinUsdM * (7 / 10)),
      lossMax := pyRound 4 (lossMaxUsdM * (7 / 10)) }
  let scenC : ScenarioVals :=
    { label := "Act in 14 days", lossMin := pyRound 4 (lossMinUsdM * (5 / 10)),
      lossMax := pyRound 4 (lossMaxUsdM * (5 / 10)) }
  { probability := reg.probability, lossMin := lossMinUsdM,
    lossMax := lossMaxUsdM,
    lossDisplayMin := lossDisplay showInr lossMinUsdM,
    lossDisplayMax := lossDisplay showInr lossMaxUsdM,
    lossUnit := "USD millions",
    expectedDaysMin := some tl.expectedDaysMin,
    expectedDaysMax := some tl.expectedDaysMax,
    confidenceScore := confidence.1, confidenceBand := confidence.2,
    methodology := build_explanation (some market) (some breakdown),
    calculationBreakdown := some breakdown,
    scenarioA := scenA, scenarioB := scenB, scenarioC := scenC,
    scenarioDisplayA := scenarioDisplayOf showInr scenA,
    scenarioDisplayB := scenarioDisplayOf showInr scenB,
    scenarioDisplayC := scenarioDisplayOf showInr scenC,
    validationPassed := some validation.1,
    validationMessage := if validation.2 = "" then none else some validation.2 }

/-- `run_risk_engine(signal_id, db)` from `services/risk_engine.py`: runs the
three estimators, applies the loss formula `loss = standardized_revenue ×
impact_pct × risk_probability` with the ±20% band, upserts the `risk_models`
row (`runRowOf`) and returns the full analysis (`runPayloadOf`).  `now` models
`datetime.utcnow()`. -/
def run_risk_engine (cfg : Config) (signalId : ℕ) (db : DB) (now : ℕ) : RunResult × DB :=
  match db.events.find? (fun e => e.id == signalId) with
  | none => (.error "Signal not found", db)
  | some _event =>
    let company := strTrim (pyOrStr _event.company "")
    if company = "" then
      (.insufficientData "Company or drug not identified for this signal.", db)
    else
      match estimate_loss cfg signalId db, estimate_probability signalId db,
            predict_days signalId db with
      | .exn m, _, _ => (.exn m, db)
      | .insufficient m, _, _ => (.insufficientData m, db)
      | .ok _, .insufficient m, _ => (.insufficientData m, db)
      | _, .exn m, _ => (.exn m, db)  -- unreachable: estimate_probability never raises
      | .ok _, .ok _, .insufficient m => (.insufficientData m, db)
      | _, _, .exn m => (.exn m, db)  -- unreachable: predict_days never raises
      | .ok fin, .ok reg, .ok tl =>
        (.ok (runPayloadOf signalId db fin reg tl),
         { db with riskModels :=
             upsertRiskModel signalId (runRowOf signalId db now fin reg tl) db.riskModels })

/-- Scenario display entry built by the cached-read path of
`get_signal_analysis` (reconverting legacy INR-crore values when needed). -/
def cachedScenarioDisplay (legacyCr showInr : Bool) (s : ScenarioVals) : ScenarioDisplay :=
  if legacyCr then
    { label := s.label, lossMin := s.lossMin, lossMax := s.lossMax,
      displayMin := format_loss_with_inr
        (some (to_usd_millions (some s.lossMin) (some "INR") (some "crores"))),
      displayMax := format_loss_with_inr
        (some (to_usd_millions (some s.lossMax) (some "INR") (some "crores"))) }
  else
    { label := s.label, lossMin := s.lossMin, lossMax := s.lossMax,
      displayMin := lossDisplay showInr s.lossMin,
      displayMax := lossDisplay showInr s.lossMax }

/-- The payload built by the cached-read branch of `get_signal_analysis` from
an existing `risk_models` row (factored out so the branch can be named in
proofs; the lets mirror the local variables of the Python endpoint). -/
def cachedPayloadOf (rm : RiskModel) : AnalysisPayload :=
  let methodology := rm.explanation
  let lm := rm.lossMin
  let lx := rm.lossMax
  let market := strLower (pyOrStr methodology.market "India")
  let showInr := market == "india"
  -- Legacy cached rows may have loss in INR crores (no calculation_breakdown)
  let legacyCr := methodology.calculationBreakdown.isNone &&
    (market == "india") && decide (lm < 10000)
  let dmin :=
    if legacyCr then
      format_loss_with_inr (some (to_usd_millions (some lm) (some "INR") (some "crores")))
    else lossDisplay showInr lm
  let dmax :=
    if legacyCr then
      format_loss_with_inr (some (to_usd_millions (some lx) (some "INR") (some "crores")))
    else lossDisplay showInr lx
  let scenA : ScenarioVals :=
    { label := "Do nothing", lossMin := pyRound 4 lm, lossMax := pyRound 4 lx }
  let scenB : ScenarioVals :=
    { label := "Act in 30 days", lossMin := pyRound 4 (lm * (7 / 10)),
      lossMax := pyRound 4 (lx * (7 / 10)) }
  let scenC : ScenarioVals :=
    { label := "Act in 14 days", lossMin := pyRound 4 (lm * (5 / 10)),
      lossMax := pyRound 4 (lx * (5 / 10)) }
  { probability := rm.probability, lossMin := rm.lossMin, lossMax := rm.lossMax,
    lossDisplayMin := dmin, lossDisplayMax := dmax,
    lossUnit := "USD millions",
    expectedDaysMin := rm.expectedDaysMin, expectedDaysMax := rm.expectedDaysMax,
    confidenceScore := rm.confidenceScore,
    confidenceBand :=
      if 7 / 10 ≤ rm.confidenceScore then "High"
      else if 4 / 10 ≤ rm.confidenceScore then "Medium" else "Low",
    methodology := methodology,
    calculationBreakdown := methodology.calculationBreakdown,
    scenarioA := scenA, scenarioB := scenB, scenarioC := scenC,
    scenarioDisplayA := cachedScenarioDisplay legacyCr showInr scenA,
    scenarioDisplayB := cachedScenarioDisplay legacyCr showInr scenB,
    scenarioDisplayC := cachedScenarioDisplay legacyCr showInr scenC,
    validationPassed := none, validationMessage := none }

/-- `GET /signals/{signal_id}/analysis` (`get_signal_analysis` in `main.py`):
return the cached analysis when a `risk_models` row exists (re-deriving
display strings and scenarios at read time, with legacy INR-crore
reconversion, via `cachedPayloadOf`), else compute fresh via
`run_risk_engine`. -/
def get_signal_analysis (cfg : Config) (signalId : ℕ) (db : DB) (now : ℕ) :
    RunResult × DB :=
  match db.riskModels.find? (fun r => r.signalId == signalId) with
  | some rm => (.ok (cachedPayloadOf rm), db)
  | none => run_risk_engine cfg signalId db now

/-- `POST /risk-engine/recalculate` (`recalculate_risk` in `main.py`): force
recompute, overwriting any existing `risk_models` row. -/
def recalculate_risk (cfg : Config) (signalId : ℕ) (db : DB) (now : ℕ) :
    RunResult × DB :=
  run_risk_engine cfg signalId db now

/-- Loss range of a successful result (`none` otherwise). -/
def RunResult.lossRange? : RunResult → Option (ℚ × ℚ)
  | .ok p => some (p.lossMin, p.lossMax)
  | _ => none

/-- Probability of a successful result (`none` otherwise). -/
def RunResult.probability? : RunResult → Option ℚ
  | .ok p => some p.probability
  | _ => none

/-- The loss base `standardized_revenue × impact_pct × risk_probability`
computed by `run_risk_engine` on its success path (`none` when either
estimator does not succeed). -/
def lossBaseOf (cfg : Config) (sid : ℕ) (db : DB) : Option ℚ :=
  match estimate_loss cfg sid db, estimate_probability sid db with
  | .ok fin, .ok reg =>
    some (fin.revenueUsdM * fin.drugRevenueShare * fin.impactPct * (reg.probability / 100))
  | _, _ => none

/-! ## Concrete instances used as witnesses and counterexamples -/

/-- Configuration with demo mode disabled. -/
def cfg0 : Config := { demo := none }

/-- Signal for the regulatory-probability instance: company `"A"`. -/
def eventC3 : Event :=
  { id := 1, eventType := "Risk", source := "OpenFDA", company := some "A", drugName := none }

/-- Seven historical events for company `"A"`: one adverse, six recalls. -/
def histC3 : List HistoricalEvent :=
  { company := "A", eventType := "adverse", severityScore := none, daysToAction := none } ::
    List.replicate 6
      { company := "A", eventType := "recall", severityScore := none, daysToAction := none }

/-- Database for the regulatory-probability instance. -/
def dbC3 : DB :=
  { events := [eventC3], profiles := [], historicalEvents := histC3,
    regulatoryActions := [], riskModels := [] }

/-- Signal for the timeline instance: company `"B"`. -/
def eventC5 : Event :=
  { id := 1, eventType := "Risk", source := "OpenFDA", company := some "B", drugName := none }

/-- Database for the timeline instance: days_to_action 60, 90, 120. -/
def dbC5 : DB :=
  { events := [eventC5], profiles := [],
    historicalEvents :=
      [{ company := "B", eventType := "recall", severityScore := none, daysToAction := some 60 },
       { company := "B", eventType := "recall", severityScore := none, daysToAction := some 90 },
       { company := "B", eventType := "recall", severityScore := none, daysToAction := some 120 }],
    regulatoryActions := [], riskModels := [] }

/-- Signal with a whitespace-only company (insufficient-data gating). -/
def eventC1a : Event :=
  { id := 1, eventType := "Risk", source := "OpenFDA", company := some "  ", drugName := none }

/-- Database whose only signal has a whitespace-only company. -/
def dbC1a : DB :=
  { events := [eventC1a], profiles := [], historicalEvents := [],
    regulatoryActions := [], riskModels := [] }

/-- Signal with company `"A"` but no financial profile anywhere. -/
def eventC1b : Event :=
  { id := 1, eventType := "Risk", source := "OpenFDA", company := some "A", drugName := none }

/-- Database with a company but no financial profile: the financial estimator
fails with InsufficientData. -/
def dbC1b : DB :=
  { events := [eventC1b], profiles := [], historicalEvents := [],
    regulatoryActions := [], riskModels := [] }

/-- Signal for the successful-run instances: company `"Acme"`. -/
def eventC2 : Event :=
  { id := 1, eventType := "Risk", source := "OpenFDA", company := some "Acme", drugName := none }

/-- Financial profile of `"Acme"`: 1000 USD millions, full drug share. -/
def profAcme : FinancialProfile :=
  { company := "Acme", annualRevenue := 1000, drugRevenueShare := 1,
    currency := some "USD", unitScale := some "millions", market := some "US" }

/-- Database on which `run_risk_engine` succeeds with loss base 45. -/
def dbC2w : DB :=
  { events := [eventC2], profiles := [profAcme],
    historicalEvents :=
      [{ company := "Acme", eventType := "adverse", severityScore := some 1,
         daysToAction := some 30 }],
    regulatoryActions := [], riskModels := [] }

/-- Database on which `run_risk_engine` succeeds with loss base 0 (severity 0
makes the impact percentage 0). -/
def dbC2z : DB :=
  { events := [eventC2], profiles := [profAcme],
    historicalEvents :=
      [{ company := "Acme", eventType := "adverse", severityScore := some 0,
         daysToAction := some 30 }],
    regulatoryActions := [], riskModels := [] }

/-- A legacy cached row: India market, no calculation_breakdown, stored loss
values (in INR crores) below 10000. -/
def rmC9 : RiskModel :=
  { signalId := 1, probability := 50, lossMin := 100, lossMax := 200,
    expectedDaysMin := some 10, expectedDaysMax := some 20, confidenceScore := 1,
    explanation := { market := some "India", calculationBreakdown := none },
    updatedAt := 3 }

/-- Database holding only the legacy cached row. -/
def dbC9 : DB :=
  { events := [], profiles := [], historicalEvents := [], regulatoryActions := [],
    riskModels := [rmC9] }

/-! ## Correctness of the exact truncation of `a ± variance ** 0.5` -/

/-- Python `int()` applied to a real number: truncation toward zero. -/
noncomputable def realTrunc (x : ℝ) : ℤ := if 0 ≤ x then ⌊x⌋ else ⌈x⌉

theorem floor_add_between (k T d : ℤ) (hd : (0 : ℝ) < (d : ℝ)) (y : ℝ)
    (h1 : (T : ℝ) ≤ y) (h2 : y < (T : ℝ) + 1) :
    ⌊((k : ℝ) + y) / (d : ℝ)⌋ = ⌊((k + T : ℤ) : ℝ) / (d : ℝ)⌋ := by
  set m := ⌊((k + T : ℤ) : ℝ) / (d : ℝ)⌋ with hm
  have hlow : (m : ℝ) ≤ ((k + T : ℤ) : ℝ) / (d : ℝ) := Int.floor_le _
  have hupp : ((k + T : ℤ) : ℝ) / (d : ℝ) < (m : ℝ) + 1 := Int.lt_floor_add_one _
  have hkT : (k : ℝ) + (T : ℝ) < (d : ℝ) * ((m : ℝ) + 1) := by
    rw [div_lt_iff hd] at hupp
    push_cast at hupp
    linarith
  have hkTi : k + T < d * (m + 1) := by exact_mod_cast hkT
  have hkTi' : k + T + 1 ≤ d * (m + 1) := hkTi
  have hkTr : (k : ℝ) + (T : ℝ) + 1 ≤ (d : ℝ) * ((m : ℝ) + 1) := by exact_mod_cast hkTi'
  refine Int.floor_eq_iff.mpr ⟨?_, ?_⟩
  · refine hlow.trans ?_
    rw [div_le_div_iff_of_pos_right hd]
    push_cast
    linarith
  · rw [div_lt_iff hd]
    linarith

theorem ceil_add_between (k T d : ℤ) (hd : (0 : ℝ) < (d : ℝ)) (y : ℝ)
    (h1 : (T : ℝ) < y) (h2 : y < (T : ℝ) + 1) :
    ⌈((k : ℝ) + y) / (d : ℝ)⌉ = ⌈((k + T + 1 : ℤ) : ℝ) / (d : ℝ)⌉ := by
  set m := ⌈((k + T + 1 : ℤ) : ℝ) / (d : ℝ)⌉ with hm
  have hupp : ((k + T + 1 : ℤ) : ℝ) / (d : ℝ) ≤ (m : ℝ) := Int.le_ceil _
  have hlow : (m : ℝ) < ((k + T + 1 : ℤ) : ℝ) / (d : ℝ) + 1 := Int.ceil_lt_add_one _
  have huppr : (k : ℝ) + (T : ℝ) + 1 ≤ (d : ℝ) * (m : ℝ) := by
    rw [div_le_iff hd] at hupp
    push_cast at hupp
    linarith
  have hlowi : d * (m - 1) < k + T + 1 := by
    have h3 : (m : ℝ) - 1 < ((k + T + 1 : ℤ) : ℝ) / (d : ℝ) := by linarith
    have h4 : ((m : ℝ) - 1) * (d : ℝ) < ((k + T + 1 : ℤ) : ℝ) := (lt_div_iff hd).mp h3
    have h5 : (m - 1) * d < k + T + 1 := by exact_mod_cast h4
    linarith [h5]
  have hlowi' : d * (m - 1) ≤ k + T := by omega
  have hlowr : (d : ℝ) * ((m : ℝ) - 1) ≤ (k : ℝ) + (T : ℝ) := by exact_mod_cast hlowi'
  refine Int.ceil_eq_iff.mpr ⟨?_, ?_⟩
  · rw [lt_div_iff hd, mul_comm]
    linarith
  · rw [div_le_iff hd, mul_comm]
    linarith

theorem rat_cast_eq_div (a v : ℚ) :
    (a : ℝ) = ((a.num * (v.den : ℤ) : ℤ) : ℝ) / (((a.den : ℤ) * (v.den : ℤ) : ℤ) : ℝ) := by
  have hs : ((a.den : ℝ)) ≠ 0 := Nat.cast_ne_zero.mpr a.den_nz
  have hq : ((v.den : ℝ)) ≠ 0 := Nat.cast_ne_zero.mpr v.den_nz
  rw [Rat.cast_def]
  push_cast
  field_simp
  ring

theorem sqrt_cast_eq_div (a v : ℚ) (hv : 0 ≤ v) :
    Real.sqrt (v : ℝ) =
      Real.sqrt ((a.den ^ 2 * v.num.toNat * v.den : ℕ) : ℝ) /
        (((a.den : ℤ) * (v.den : ℤ) : ℤ) : ℝ) := by
  have hsd : (0 : ℝ) < (a.den : ℝ) := by exact_mod_cast a.pos
  have hqd : (0 : ℝ) < (v.den : ℝ) := by exact_mod_cast v.pos
  have hdR : (0 : ℝ) < (((a.den : ℤ) * (v.den : ℤ) : ℤ) : ℝ) := by
    have h : (0 : ℤ) < (a.den : ℤ) * (v.den : ℤ) :=
      mul_pos (by exact_mod_cast a.pos) (by exact_mod_cast v.pos)
    exact_mod_cast h
  have hnum : ((v.num.toNat : ℝ)) = ((v.num : ℤ) : ℝ) := by
    exact_mod_cast Int.toNat_of_nonneg (Rat.num_nonneg.mpr hv)
  rw [Real.sqrt_eq_iff_sq_eq (by exact_mod_cast hv)
    (div_nonneg (Real.sqrt_nonneg _) hdR.le)]
  rw [div_pow, Real.sq_sqrt (by positivity)]
  rw [Rat.cast_def, ← hnum]
  push_cast
  rw [div_eq_div_iff (by positivity) (by positivity)]
  ring

theorem truncAddSqrt_eq (a v : ℚ) (hv : 0 ≤ v) :
    truncAddSqrt a v = realTrunc ((a : ℝ) + Real.sqrt (v : ℝ)) := by
  have hx : (a : ℝ) + Real.sqrt (v : ℝ)
      = (((a.num * (v.den : ℤ) : ℤ) : ℝ)
          + Real.sqrt ((a.den ^ 2 * v.num.toNat * v.den : ℕ) : ℝ))
        / (((a.den : ℤ) * (v.den : ℤ) : ℤ) : ℝ) := by
    rw [rat_cast_eq_div a v, sqrt_cast_eq_div a v hv, div_add_div_same]
  rw [hx]
  simp only [truncAddSqrt]
  set N : ℕ := a.den ^ 2 * v.num.toNat * v.den with hN
  set T : ℕ := Nat.sqrt N with hT
  set c : ℤ := a.num * (v.den : ℤ) with hc
  set d : ℤ := (a.den : ℤ) * (v.den : ℤ) with hd
  have hdpos : (0 : ℤ) < d :=
    mul_pos (by exact_mod_cast a.pos) (by exact_mod_cast v.pos)
  have hdR : (0 : ℝ) < (d : ℝ) := by exact_mod_cast hdpos
  have hTle2 : T ^ 2 ≤ N := Nat.sqrt_le' N
  have hNlt : N < (T + 1) ^ 2 := Nat.lt_succ_sqrt' N
  have hTle : ((T : ℝ)) ≤ Real.sqrt (N : ℝ) := by
    rw [show ((T : ℝ)) = Real.sqrt (((T : ℝ)) ^ 2) from (Real.sqrt_sq (by positivity)).symm]
    exact Real.sqrt_le_sqrt (by exact_mod_cast hTle2)
  have hTlt : Real.sqrt (N : ℝ) < (T : ℝ) + 1 := by
    rw [Real.sqrt_lt' (by positivity)]
    exact_mod_cast hNlt
  unfold realTrunc
  by_cases hpos : 0 ≤ c ∨ c ^ 2 ≤ (N : ℤ)
  · have hsum : (0 : ℝ) ≤ (c : ℝ) + Real.sqrt (N : ℝ) := by
      rcases hpos with h | h
      · have h0 : (0 : ℝ) ≤ (c : ℝ) := by exact_mod_cast h
        linarith [Real.sqrt_nonneg ((N : ℕ) : ℝ)]
      · have h1 : ((c : ℝ)) ^ 2 ≤ ((N : ℕ) : ℝ) := by exact_mod_cast h
        rcases le_or_lt 0 (-(c : ℝ)) with hc0 | hc0
        · have h2 : (-(c : ℝ)) ≤ Real.sqrt (N : ℝ) := by
            rw [Real.le_sqrt hc0 (by positivity)]
            calc (-(c : ℝ)) ^ 2 = (c : ℝ) ^ 2 := by ring
              _ ≤ _ := h1
          linarith
        · linarith [Real.sqrt_nonneg ((N : ℕ) : ℝ)]
    have hxpos : (0 : ℝ) ≤ ((c : ℝ) + Real.sqrt (N : ℝ)) / (d : ℝ) := div_nonneg hsum hdR.le
    rw [if_pos hpos, if_pos hxpos]
    rw [floor_add_between c T d hdR (Real.sqrt (N : ℝ)) (by push_cast; exact hTle)
      (by push_cast; exact hTlt)]
    rw [show ((c + (T : ℤ) : ℤ) : ℝ) / (d : ℝ)
          = ((((c + T : ℤ) : ℚ) / ((d : ℤ) : ℚ) : ℚ) : ℝ) from by push_cast; ring]
    exact (Rat.floor_cast _).symm
  · have hcneg : c < 0 ∧ (N : ℤ) < c ^ 2 := by
      push_neg at hpos
      exact hpos
    have hsqlt : Real.sqrt (N : ℝ) < -(c : ℝ) := by
      rw [Real.sqrt_lt' (by exact_mod_cast neg_pos.mpr hcneg.1)]
      calc ((N : ℕ) : ℝ) < ((c : ℝ)) ^ 2 := by exact_mod_cast hcneg.2
        _ = (-(c : ℝ)) ^ 2 := by ring
    have hxneg : ((c : ℝ) + Real.sqrt (N : ℝ)) / (d : ℝ) < 0 :=
      div_neg_of_neg_of_pos (by linarith) hdR
    rw [if_neg hpos, if_neg (not_le.mpr hxneg)]
    by_cases hex : T ^ 2 = N
    · have hsq : Real.sqrt ((N : ℕ) : ℝ) = (T : ℝ) := by
        rw [show ((N : ℕ) : ℝ) = ((T : ℝ)) ^ 2 from by exact_mod_cast hex.symm]
        exact Real.sqrt_sq (by positivity)
      rw [if_pos hex, hsq]
      rw [show ((c : ℝ) + (T : ℝ)) / (d : ℝ)
            = ((((c + T : ℤ) : ℚ) / ((d : ℤ) : ℚ) : ℚ) : ℝ) from by push_cast; ring]
      exact (Rat.ceil_cast _).symm
    · have hTlt' : (T : ℝ) < Real.sqrt (N : ℝ) := by
      { have h2 : (T : ℕ) ^ 2 < N := lt_of_le_of_ne hTle2 hex
        have h3 : ((T : ℝ)) ^ 2 < ((N : ℕ) : ℝ) := by exact_mod_cast h2
        calc (T : ℝ) = Real.sqrt (((T : ℝ)) ^ 2) := (Real.sqrt_sq (by positivity)).symm
          _ < Real.sqrt ((N : ℕ) : ℝ) := Real.sqrt_lt_sqrt (by positivity) h3 }
      rw [if_neg hex]
      rw [ceil_add_between c T d hdR (Real.sqrt (N : ℝ)) (by push_cast; exact hTlt')
        (by push_cast; exact hTlt)]
      rw [show ((c + (T : ℤ) + 1 : ℤ) : ℝ) / (d : ℝ)
            = ((((c + T + 1 : ℤ) : ℚ) / ((d : ℤ) : ℚ) : ℚ) : ℝ) from by push_cast; ring]
      exact (Rat.ceil_cast _).symm

theorem truncSubSqrt_eq (a v : ℚ) (hv : 0 ≤ v) :
    truncSubSqrt a v = realTrunc ((a : ℝ) - Real.sqrt (v : ℝ)) := by
  have hx : (a : ℝ) - Real.sqrt (v : ℝ)
      = (((a.num * (v.den : ℤ) : ℤ) : ℝ)
          + -Real.sqrt ((a.den ^ 2 * v.num.toNat * v.den : ℕ) : ℝ))
        / (((a.den : ℤ) * (v.den : ℤ) : ℤ) : ℝ) := by
    rw [rat_cast_eq_div a v, sqrt_cast_eq_div a v hv]
    ring
  rw [hx]
  simp only [truncSubSqrt]
  set N : ℕ := a.den ^ 2 * v.num.toNat * v.den with hN
  set T : ℕ := Nat.sqrt N with hT
  set c : ℤ := a.num * (v.den : ℤ) with hc
  set d : ℤ := (a.den : ℤ) * (v.den : ℤ) with hd
  have hdpos : (0 : ℤ) < d :=
    mul_pos (by exact_mod_cast a.pos) (by exact_mod_cast v.pos)
  have hdR : (0 : ℝ) < (d : ℝ) := by exact_mod_cast hdpos
  have hTle2 : T ^ 2 ≤ N := Nat.sqrt_le' N
  have hNlt : N < (T + 1) ^ 2 := Nat.lt_succ_sqrt' N
  have hTle : ((T : ℝ)) ≤ Real.sqrt (N : ℝ) := by
    rw [show ((T : ℝ)) = Real.sqrt (((T : ℝ)) ^ 2) from (Real.sqrt_sq (by positivity)).symm]
    exact Real.sqrt_le_sqrt (by exact_mod_cast hTle2)
  have hTlt : Real.sqrt (N : ℝ) < (T : ℝ) + 1 := by
    rw [Real.sqrt_lt' (by positivity)]
    exact_mod_cast hNlt
  unfold realTrunc
  by_cases hpos : 0 ≤ c ∧ (N : ℤ) ≤ c ^ 2
  · have hc0 : (0 : ℝ) ≤ (c : ℝ) := by exact_mod_cast hpos.1
    have hsle : Real.sqrt (N : ℝ) ≤ (c : ℝ) := by
      rcases eq_or_lt_of_le hc0 with hc0' | hc0'
      · have hN0 : (N : ℤ) ≤ 0 := by
          calc (N : ℤ) ≤ c ^ 2 := hpos.2
            _ = 0 := by rw [show c = 0 from by exact_mod_cast hc0'.symm]; ring
        have hN0' : N = 0 := by omega
        rw [hN0']
        simp [Real.sqrt_zero, ← hc0']
      · rw [show (c : ℝ) = Real.sqrt (((c : ℝ)) ^ 2) from (Real.sqrt_sq hc0).symm]
        exact Real.sqrt_le_sqrt (by exact_mod_cast hpos.2)
    have hsum : (0 : ℝ) ≤ (c : ℝ) + -Real.sqrt (N : ℝ) := by linarith
    have hxpos : (0 : ℝ) ≤ ((c : ℝ) + -Real.sqrt (N : ℝ)) / (d : ℝ) := div_nonneg hsum hdR.le
    rw [if_pos hpos, if_pos hxpos]
    by_cases hex : T ^ 2 = N
    · have hsq : Real.sqrt ((N : ℕ) : ℝ) = (T : ℝ) := by
        rw [show ((N : ℕ) : ℝ) = ((T : ℝ)) ^ 2 from by exact_mod_cast hex.symm]
        exact Real.sqrt_sq (by positivity)
      rw [if_pos hex, hsq]
      rw [show ((c : ℝ) + -(T : ℝ)) / (d : ℝ)
            = ((((c - T : ℤ) : ℚ) / ((d : ℤ) : ℚ) : ℚ) : ℝ) from by push_cast; ring]
      exact (Rat.floor_cast _).symm
    · have hTlt' : (T : ℝ) < Real.sqrt (N : ℝ) := by
      { have h2 : (T : ℕ) ^ 2 < N := lt_of_le_of_ne hTle2 hex
        have h3 : ((T : ℝ)) ^ 2 < ((N : ℕ) : ℝ) := by exact_mod_cast h2
        calc (T : ℝ) = Real.sqrt (((T : ℝ)) ^ 2) := (Real.sqrt_sq (by positivity)).symm
          _ < Real.sqrt ((N : ℕ) : ℝ) := Real.sqrt_lt_sqrt (by positivity) h3 }
      rw [if_neg hex]
      rw [floor_add_between c (-(T : ℤ) - 1) d hdR (-Real.sqrt (N : ℝ))
        (by push_cast; linarith) (by push_cast; linarith)]
      rw [show ((c + (-(T : ℤ) - 1) : ℤ) : ℝ) / (d : ℝ)
            = ((((c - T - 1 : ℤ) : ℚ) / ((d : ℤ) : ℚ) : ℚ) : ℝ) from by push_cast; ring]
      exact (Rat.floor_cast _).symm
  · have hxneg : ((c : ℝ) + -Real.sqrt (N : ℝ)) / (d : ℝ) < 0 := by
      apply div_neg_of_neg_of_pos _ hdR
      rcases not_and_or.mp hpos with h | h
      · have h0 : (c : ℝ) < 0 := by exact_mod_cast not_le.mp h
        linarith [Real.sqrt_nonneg ((N : ℕ) : ℝ)]
      · have h1 : c ^ 2 < (N : ℤ) := not_le.mp h
        have hcle : |(c : ℝ)| < Real.sqrt (N : ℝ) := by
          rw [show |(c : ℝ)| = Real.sqrt ((|(c : ℝ)|) ^ 2) from
            (Real.sqrt_sq (abs_nonneg _)).symm]
          apply Real.sqrt_lt_sqrt (by positivity)
          rw [sq_abs]
          exact_mod_cast h1
        have := le_abs_self (c : ℝ)
        linarith
    rw [if_neg hpos, if_neg (not_le.mpr hxneg)]
    by_cases hex : T ^ 2 = N
    · have hsq : Real.sqrt ((N : ℕ) : ℝ) = (T : ℝ) := by
        rw [show ((N : ℕ) : ℝ) = ((T : ℝ)) ^ 2 from by exact_mod_cast hex.symm]
        exact Real.sqrt_sq (by positivity)
      rw [hsq]
      rw [show ((c : ℝ) + -(T : ℝ)) / (d : ℝ)
            = ((((c - T : ℤ) : ℚ) / ((d : ℤ) : ℚ) : ℚ) : ℝ) from by push_cast; ring]
      exact (Rat.ceil_cast _).symm
    · have hTlt' : (T : ℝ) < Real.sqrt (N : ℝ) := by
      { have h2 : (T : ℕ) ^ 2 < N := lt_of_le_of_ne hTle2 hex
        have h3 : ((T : ℝ)) ^ 2 < ((N : ℕ) : ℝ) := by exact_mod_cast h2
        calc (T : ℝ) = Real.sqrt (((T : ℝ)) ^ 2) := (Real.sqrt_sq (by positivity)).symm
          _ < Real.sqrt ((N : ℕ) : ℝ) := Real.sqrt_lt_sqrt (by positivity) h3 }
      rw [ceil_add_between c (-(T : ℤ) - 1) d hdR (-Real.sqrt (N : ℝ))
        (by push_cast; linarith) (by push_cast; linarith)]
      rw [show ((c + (-(T : ℤ) - 1) + 1 : ℤ) : ℝ) / (d : ℝ)
            = ((((c - T : ℤ) : ℚ) / ((d : ℤ) : ℚ) : ℚ) : ℝ) from by push_cast; ring]
      exact (Rat.ceil_cast _).symm

/-! ## Rounding helper lemmas -/

theorem floor_le_pyRoundInt (x : ℚ) : ⌊x⌋ ≤ pyRoundInt x := by
  simp only [pyRoundInt]
  split_ifs <;> omega

theorem pyRoundInt_le_floor_succ (x : ℚ) : pyRoundInt x ≤ ⌊x⌋ + 1 := by
  simp only [pyRoundInt]
  split_ifs <;> omega

theorem pyRoundInt_zero : pyRoundInt 0 = 0 := by
  norm_num [pyRoundInt]

theorem pyRoundInt_mono {x y : ℚ} (h : x ≤ y) : pyRoundInt x ≤ pyRoundInt y := by
  have hf : ⌊x⌋ ≤ ⌊y⌋ := Int.floor_le_floor h
  rcases eq_or_lt_of_le hf with heq | hlt
  · by_cases hx : x - ⌊x⌋ < 1 / 2
    · have hvx : pyRoundInt x = ⌊x⌋ := by
        simp only [pyRoundInt]
        rw [if_pos hx]
      rw [hvx, heq]
      exact floor_le_pyRoundInt y
    · by_cases hy : (1 : ℚ) / 2 < y - ⌊y⌋
      · have hvy : pyRoundInt y = ⌊y⌋ + 1 := by
          simp only [pyRoundInt]
          rw [if_neg (by intro hc; linarith), if_pos hy]
        calc pyRoundInt x ≤ ⌊x⌋ + 1 := pyRoundInt_le_floor_succ x
          _ = ⌊y⌋ + 1 := by omega
          _ = pyRoundInt y := hvy.symm
      · have hxy : x = y := by
          have h1 : (1 : ℚ) / 2 ≤ x - ⌊x⌋ := le_of_not_lt hx
          have h2 : y - ⌊y⌋ ≤ 1 / 2 := le_of_not_lt hy
          have h3 : ((⌊x⌋ : ℚ)) = ((⌊y⌋ : ℚ)) := by exact_mod_cast heq
          have h4 : y ≤ x := by linarith
          exact le_antisymm h h4
        rw [hxy]
  · calc pyRoundInt x ≤ ⌊x⌋ + 1 := pyRoundInt_le_floor_succ x
      _ ≤ ⌊y⌋ := by omega
      _ ≤ pyRoundInt y := floor_le_pyRoundInt y

theorem pyRound_mono (k : ℕ) {x y : ℚ} (h : x ≤ y) : pyRound k x ≤ pyRound k y := by
  unfold pyRound
  have hm : pyRoundInt (x * (10 : ℚ) ^ k) ≤ pyRoundInt (y * (10 : ℚ) ^ k) :=
    pyRoundInt_mono (by
      have : (0 : ℚ) < (10 : ℚ) ^ k := by positivity
      nlinarith)
  have hc : ((pyRoundInt (x * (10 : ℚ) ^ k) : ℚ)) ≤ ((pyRoundInt (y * (10 : ℚ) ^ k) : ℚ)) := by
    exact_mod_cast hm
  have hp : (0 : ℚ) < (10 : ℚ) ^ k := by positivity
  exact div_le_div_of_le_of_nonneg hc hp.le

theorem pyRound_nonneg (k : ℕ) {x : ℚ} (h : 0 ≤ x) : 0 ≤ pyRound k x := by
  have h0 : pyRound k 0 ≤ pyRound k x := pyRound_mono k h
  have hz : pyRound k 0 = 0 := by
    unfold pyRound
    rw [show (0 : ℚ) * (10 : ℚ) ^ k = 0 from by ring, pyRoundInt_zero]
    norm_num
  linarith [h0, hz.symm.le]

/-! ## Claim C8: safety of to_usd_millions -/

/-- Claim C8: for every input (missing value, any currency string, any
unit-scale string), `to_usd_millions` is total (it is a Lean function), never
returns a negative number, and returns exactly `0` whenever the value is
missing or non-positive. -/
theorem to_usd_millions_safe (v : Option ℚ) (cur scale : Option String) :
    0 ≤ to_usd_millions v cur scale ∧
      (v.getD 0 ≤ 0 → to_usd_millions v cur scale = 0) := by
  rcases v with _ | x
  · simp [to_usd_millions]
  · simp only [to_usd_millions, Option.getD]
    by_cases hx : x ≤ 0
    · simp [hx]
    · rw [if_neg hx]
      refine ⟨?_, fun h => absurd h hx⟩
      have hx' : 0 < x := not_le.mp hx
      have hc : 0 < CRORE_TO_USD_MILLIONS := by norm_num [CRORE_TO_USD_MILLIONS, INR_PER_USD]
      have he : 0 < EUR_TO_USD := by norm_num [EUR_TO_USD]
      have h1000 : (0 : ℚ) < 1000 := by norm_num
      split_ifs
      all_goals first
        | exact (mul_pos hx' hc).le
        | exact (mul_pos hx' h1000).le
        | exact hx'.le
        | exact (div_pos hx' h1000).le
        | exact (mul_pos (mul_pos hx' h1000) he).le
        | exact (mul_pos hx' he).le
        | exact (mul_pos (div_pos hx' h1000) he).le

/-- Witness for C8 at a concrete negative input. -/
theorem to_usd_millions_safe_witness :
    0 ≤ to_usd_millions (some (-3)) (some "INR") (some "crores") ∧
      to_usd_millions (some (-3)) (some "INR") (some "crores") = 0 :=
  ⟨(to_usd_millions_safe (some (-3)) (some "INR") (some "crores")).1,
   (to_usd_millions_safe (some (-3)) (some "INR") (some "crores")).2 (by norm_num)⟩

/-! ## Claim C4: INR-crore round trip -/

/-- Claim C4 (amended): for any NON-NEGATIVE amount in INR crores, converting
to canonical USD millions and back yields the original amount exactly (hence
within ±0.01%).  As stated over all amounts the claim fails: the conversion
clamps non-positive values to `0` (see the counterexample). -/
theorem inr_crores_roundtrip (amount : ℚ) (h : 0 ≤ amount) :
    usd_millions_to_inr_crores
        (some (to_usd_millions (some amount) (some "INR") (some "crores"))) = amount ∧
      |usd_millions_to_inr_crores
          (some (to_usd_millions (some amount) (some "INR") (some "crores"))) - amount|
        ≤ amount * (1 / 10000) := by
  have key : usd_millions_to_inr_crores
      (some (to_usd_millions (some amount) (some "INR") (some "crores"))) = amount := by
    rcases eq_or_lt_of_le h with h0 | h0
    · rw [← h0]
      norm_num [to_usd_millions, usd_millions_to_inr_crores]
    · have e1 : strUpper (pyOrStr (some "INR") "USD") = "INR" := by decide
      have e2 : strLower (pyOrStr (some "crores") "millions") = "crores" := by decide
      have ht : to_usd_millions (some amount) (some "INR") (some "crores")
          = amount * CRORE_TO_USD_MILLIONS := by
        simp [to_usd_millions, e1, e2, not_le.mpr h0]
      rw [ht]
      have hcp : (0 : ℚ) < CRORE_TO_USD_MILLIONS := by
        norm_num [CRORE_TO_USD_MILLIONS, INR_PER_USD]
      have hpos : 0 < amount * CRORE_TO_USD_MILLIONS := mul_pos h0 hcp
      simp only [usd_millions_to_inr_crores]
      rw [if_neg (not_le.mpr hpos)]
      rw [CRORE_TO_USD_MILLIONS, INR_PER_USD]
      ring
  refine ⟨key, ?_⟩
  rw [key, sub_self, abs_zero]
  exact mul_nonneg h (by norm_num)

/-- Witness for C4 at the concrete amount 48000 (crores). -/
theorem inr_crores_roundtrip_witness :
    usd_millions_to_inr_crores
        (some (to_usd_millions (some 48000) (some "INR") (some "crores"))) = 48000 :=
  (inr_crores_roundtrip 48000 (by norm_num)).1

/-- Counterexample for C4 as stated: at amount `-1` the round trip returns `0`,
which is not within ±0.01% of `-1`. -/
theorem inr_crores_roundtrip_cex :
    usd_millions_to_inr_crores
        (some (to_usd_millions (some (-1)) (some "INR") (some "crores"))) = 0 ∧
      ¬ (|usd_millions_to_inr_crores
            (some (to_usd_millions (some (-1)) (some "INR") (some "crores"))) - (-1)|
          ≤ |(-1 : ℚ)| * (1 / 10000)) := by
  have h : usd_millions_to_inr_crores
      (some (to_usd_millions (some (-1)) (some "INR") (some "crores"))) = 0 := by
    norm_num [to_usd_millions, usd_millions_to_inr_crores]
  refine ⟨h, ?_⟩
  rw [h]
  norm_num

/-! ## Claim C10: INR with a non-crore unit scale -/

/-- Claim C10 (amended): for every positive value with currency `"INR"`, the
value is returned unchanged whenever the LOWERCASED unit scale differs from
`"crores"`, and the exchange rate is applied exactly when the lowercased unit
scale equals `"crores"`.  As stated ("the exact (INR, crores) pair") the claim
fails: the comparison is case-insensitive (see the counterexample). -/
theorem inr_scale_passthrough (v : ℚ) (scale : String) (hv : 0 < v) :
    (strLower scale ≠ "crores" → to_usd_millions (some v) (some "INR") (some scale) = v) ∧
      (strLower scale = "crores" →
        to_usd_millions (some v) (some "INR") (some scale) = v * CRORE_TO_USD_MILLIONS) := by
  have e1 : strUpper (pyOrStr (some "INR") "USD") = "INR" := by decide
  by_cases hs : scale = ""
  · subst hs
    have e3 : strLower (pyOrStr (some "") "millions") = "millions" := by decide
    constructor
    · intro _
      simp [to_usd_millions, e1, e3, not_le.mpr hv]
    · intro hcontra
      exact absurd hcontra (by decide)
  · have e2 : pyOrStr (some scale) "millions" = scale := by simp [pyOrStr, hs]
    constructor <;> intro h <;>
      simp [to_usd_millions, e1, e2, not_le.mpr hv, h]

/-- Witness for C10: INR millions pass through unchanged, INR crores use the
exchange rate. -/
theorem inr_scale_passthrough_witness :
    to_usd_millions (some 7) (some "INR") (some "millions") = 7 ∧
      to_usd_millions (some 7) (some "INR") (some "crores") = 7 * CRORE_TO_USD_MILLIONS :=
  ⟨(inr_scale_passthrough 7 "millions" (by norm_num)).1 (by decide),
   (inr_scale_passthrough 7 "crores" (by norm_num)).2 (by decide)⟩

/-- Counterexample for C10 as stated: the unit scale `"CRORES"` differs from
the exact string `"crores"`, yet the INR→USD exchange rate is applied and the
value is not returned unchanged. -/
theorem inr_scale_passthrough_cex :
    ("CRORES" : String) ≠ "crores" ∧
      to_usd_millions (some 5) (some "INR") (some "CRORES") = 5 * CRORE_TO_USD_MILLIONS ∧
      to_usd_millions (some 5) (some "INR") (some "CRORES") ≠ 5 := by
  have e1 : strUpper (pyOrStr (some "INR") "USD") = "INR" := by decide
  have e2 : strLower (pyOrStr (some "CRORES") "millions") = "crores" := by decide
  have hval : to_usd_millions (some 5) (some "INR") (some "CRORES")
      = 5 * CRORE_TO_USD_MILLIONS := by
    simp [to_usd_millions, e1, e2]
  refine ⟨by decide, hval, ?_⟩
  rw [hval]
  norm_num [CRORE_TO_USD_MILLIONS, INR_PER_USD]

/-! ## Claim C7: display formatting at the K/M boundary -/

/-- Claim C7 (amended): the USD formatter branches at the stated thresholds,
but for loss_base = 0.0005 USD millions the rounded band is
loss_min = 0.0004, loss_max = 0.0006, BOTH below the 0.001 threshold of the
`$XK` branch, so both render as `"$0.00M"` — not `"$1K"` as the claim states
(see the counterexample). -/
theorem format_loss_usd_boundary (l : ℚ) (h0 : 0 ≤ l) :
    (1000 ≤ l → format_loss_usd (some l) = "$" ++ fmtFixed 1 (l / 1000) ++ "B") ∧
      (1 ≤ l → l < 1000 → format_loss_usd (some l) = "$" ++ fmtFixed 0 l ++ "M") ∧
      (1 / 1000 ≤ l → l < 1 → format_loss_usd (some l) = "$" ++ fmtFixed 0 (l * 1000) ++ "K") ∧
      (l < 1 / 1000 → format_loss_usd (some l) = "$" ++ fmtFixed 2 l ++ "M") ∧
      pyRound 4 ((5 / 10000) * (8 / 10)) = 4 / 10000 ∧
      pyRound 4 ((5 / 10000) * (12 / 10)) = 6 / 10000 ∧
      format_loss_usd (some (4 / 10000)) = "$0.00M" ∧
      format_loss_usd (some (6 / 10000)) = "$0.00M" := by
  refine ⟨?_, ?_, ?_, ?_, ?_, ?_, ?_, ?_⟩
  · intro h
    simp only [format_loss_usd]
    rw [if_neg (not_lt.mpr h0), if_pos h]
  · intro h1 h2
    simp only [format_loss_usd]
    rw [if_neg (not_lt.mpr h0), if_neg (not_le.mpr h2), if_pos h1]
  · intro h1 h2
    simp only [format_loss_usd]
    rw [if_neg (not_lt.mpr h0), if_neg (by linarith), if_neg (not_le.mpr h2), if_pos h1]
  · intro h1
    simp only [format_loss_usd]
    rw [if_neg (not_lt.mpr h0), if_neg (by linarith), if_neg (by linarith),
      if_neg (not_le.mpr h1)]
  · norm_num [pyRound, pyRoundInt]
  · norm_num [pyRound, pyRoundInt]
  · have hfmt : fmtFixed 2 ((4 : ℚ) / 10000) = "0.00" := by
      norm_num [fmtFixed, pyRoundInt, padZeros] <;> decide
    simp only [format_loss_usd]
    rw [if_neg (by norm_num), if_neg (by norm_num), if_neg (by norm_num),
      if_neg (by norm_num), hfmt]
    decide
  · have hfmt : fmtFixed 2 ((6 : ℚ) / 10000) = "0.00" := by
      norm_num [fmtFixed, pyRoundInt, padZeros] <;> decide
    simp only [format_loss_usd]
    rw [if_neg (by norm_num), if_neg (by norm_num), if_neg (by norm_num),
      if_neg (by norm_num), hfmt]
    decide

/-- Witness for C7 at the concrete value 2 USD millions (renders `"$2M"`). -/
theorem format_loss_usd_boundary_witness :
    format_loss_usd (some 2) = "$2M" := by
  have h := (format_loss_usd_boundary 2 (by norm_num)).2.1 (by norm_num) (by norm_num)
  rw [h]
  have : fmtFixed 0 (2 : ℚ) = "2" := by
    norm_num [fmtFixed, pyRoundInt, padZeros] <;> decide
  rw [this]
  decide

/-- Counterexample for C7 as stated: with loss_base = 0.0005, the formatter
renders both rounded bounds as `"$0.00M"`, which is not `"$1K"`. -/
theorem format_loss_usd_boundary_cex :
    format_loss_usd (some (pyRound 4 ((5 / 10000) * (8 / 10)))) = "$0.00M" ∧
      format_loss_usd (some (pyRound 4 ((5 / 10000) * (12 / 10)))) = "$0.00M" ∧
      ("$0.00M" : String) ≠ "$1K" := by
  have h1 : pyRound 4 ((5 : ℚ) / 10000 * (8 / 10)) = 4 / 10000 := by
    norm_num [pyRound, pyRoundInt]
  have h2 : pyRound 4 ((5 : ℚ) / 10000 * (12 / 10)) = 6 / 10000 := by
    norm_num [pyRound, pyRoundInt]
  have hfmt1 : fmtFixed 2 ((4 : ℚ) / 10000) = "0.00" := by
    norm_num [fmtFixed, pyRoundInt, padZeros] <;> decide
  have hfmt2 : fmtFixed 2 ((6 : ℚ) / 10000) = "0.00" := by
    norm_num [fmtFixed, pyRoundInt, padZeros] <;> decide
  refine ⟨?_, ?_, by decide⟩
  · rw [h1]
    simp only [format_loss_usd]
    rw [if_neg (by norm_num), if_neg (by norm_num), if_neg (by norm_num),
      if_neg (by norm_num), hfmt1]
    decide
  · rw [h2]
    simp only [format_loss_usd]
    rw [if_neg (by norm_num), if_neg (by norm_num), if_neg (by norm_num),
      if_neg (by norm_num), hfmt2]
    decide

/-! ## Claim C3: the regulatory probability formula -/

/-- Claim C3 (amended): for every signal with a non-empty company,
`estimate_probability` succeeds and returns
`round(100 × (0.30·adverse + 0.20·media + 0.20·inspection + 0.30·history), 1)`
— the weighted formula ROUNDED TO ONE DECIMAL (the claim's exact equality
fails, see the counterexample) — where each component score lies in `[0,1]`,
the probability lies in `[0,100]`, and an all-zero history still yields a
successful result with probability `0`, never InsufficientData. -/
theorem estimate_probability_formula (sid : ℕ) (db : DB) (ev : Event)
    (hfind : db.events.find? (fun e => e.id == sid) = some ev)
    (hcomp : strTrim (pyOrStr ev.company "") ≠ "") :
    let company := strTrim (pyOrStr ev.company "")
    let adverseCount := (db.historicalEvents.filter (fun h =>
      strLower h.company == strLower company &&
      (strLower h.eventType == "adverse" || strLower h.eventType == "safety"))).length
    let totalHist := (db.historicalEvents.filter (fun h =>
      strLower h.company == strLower company)).length
    let adverseScore : ℚ := if 0 < totalHist then
        min ((adverseCount : ℚ) / ((max totalHist 1 : ℕ) : ℚ)) 1 else 0
    let mediaScore : ℚ := min (((db.events.filter (fun e =>
      (match e.company with
       | some c => strLower c == strLower company
       | none => false) &&
      (e.source == "Serper" || e.source == "News"))).length : ℚ) / 10) 1
    let inspectionScore : ℚ := min (((db.historicalEvents.filter (fun h =>
      strLower h.company == strLower company &&
        strLower h.eventType == "inspection")).length : ℚ) / 5) 1
    let historyScore : ℚ := min (((db.regulatoryActions.filter (fun a =>
      strLower a.company == strLower company)).length : ℚ) / 8) 1
    ∃ p : RegPayload,
      estimate_probability sid db = .ok p ∧
      p.probability = pyRound 1 (100 * (30 / 100 * adverseScore + 20 / 100 * mediaScore +
        20 / 100 * inspectionScore + 30 / 100 * historyScore)) ∧
      0 ≤ adverseScore ∧ adverseScore ≤ 1 ∧
      0 ≤ mediaScore ∧ mediaScore ≤ 1 ∧
      0 ≤ inspectionScore ∧ inspectionScore ≤ 1 ∧
      0 ≤ historyScore ∧ historyScore ≤ 1 ∧
      0 ≤ p.probability ∧ p.probability ≤ 100 ∧
      (adverseScore = 0 ∧ mediaScore = 0 ∧ inspectionScore = 0 ∧ historyScore = 0 →
        p.probability = 0) := by
  intro company adverseCount totalHist adverseScore mediaScore inspectionScore historyScore
  have hA0 : 0 ≤ adverseScore ∧ adverseScore ≤ 1 := by
    unfold_let adverseScore
    split_ifs
    · exact ⟨le_min (by positivity) (by norm_num), min_le_right _ _⟩
    · norm_num
  have hM0 : 0 ≤ mediaScore ∧ mediaScore ≤ 1 :=
    ⟨le_min (by positivity) (by norm_num), min_le_right _ _⟩
  have hI0 : 0 ≤ inspectionScore ∧ inspectionScore ≤ 1 :=
    ⟨le_min (by positivity) (by norm_num), min_le_right _ _⟩
  have hH0 : 0 ≤ historyScore ∧ historyScore ≤ 1 :=
    ⟨le_min (by positivity) (by norm_num), min_le_right _ _⟩
  have hform : (30 / 100 * adverseScore + 20 / 100 * mediaScore +
      20 / 100 * inspectionScore + 30 / 100 * historyScore) * 100
      = 100 * (30 / 100 * adverseScore + 20 / 100 * mediaScore +
        20 / 100 * inspectionScore + 30 / 100 * historyScore) := by ring
  have hval : estimate_probability sid db = .ok
      { probability := pyRound 1 ((30 / 100 * adverseScore + 20 / 100 * mediaScore +
          20 / 100 * inspectionScore + 30 / 100 * historyScore) * 100),
        compAdverse := pyRound 2 adverseScore, compMedia := pyRound 2 mediaScore,
        compInspections := pyRound 2 inspectionScore,
        compPastActions := pyRound 2 historyScore } := by
    simp only [estimate_probability, hfind]
    rw [if_neg hcomp]
  refine ⟨_, hval, ?_, hA0.1, hA0.2, hM0.1, hM0.2, hI0.1, hI0.2, hH0.1, hH0.2, ?_, ?_, ?_⟩
  · show pyRound 1 ((30 / 100 * adverseScore + 20 / 100 * mediaScore +
      20 / 100 * inspectionScore + 30 / 100 * historyScore) * 100) = _
    rw [hform]
  · show (0 : ℚ) ≤ pyRound 1 ((30 / 100 * adverseScore + 20 / 100 * mediaScore +
      20 / 100 * inspectionScore + 30 / 100 * historyScore) * 100)
    exact pyRound_nonneg 1 (by nlinarith [hA0.1, hM0.1, hI0.1, hH0.1])
  · show pyRound 1 ((30 / 100 * adverseScore + 20 / 100 * mediaScore +
      20 / 100 * inspectionScore + 30 / 100 * historyScore) * 100) ≤ 100
    have h100 : pyRound 1 (100 : ℚ) = 100 := by norm_num [pyRound, pyRoundInt]
    calc pyRound 1 ((30 / 100 * adverseScore + 20 / 100 * mediaScore +
          20 / 100 * inspectionScore + 30 / 100 * historyScore) * 100)
        ≤ pyRound 1 100 := pyRound_mono 1 (by nlinarith [hA0.2, hM0.2, hI0.2, hH0.2])
      _ = 100 := h100
  · rintro ⟨ha, hm, hi, hh⟩
    show pyRound 1 ((30 / 100 * adverseScore + 20 / 100 * mediaScore +
      20 / 100 * inspectionScore + 30 / 100 * historyScore) * 100) = 0
    rw [ha, hm, hi, hh]
    norm_num [pyRound, pyRoundInt]

/-- Witness for C3: company `"A"` with 7 historical events (1 adverse) yields
probability `4.3`, inside the bounds given by the theorem. -/
theorem estimate_probability_formula_witness :
    estimate_probability 1 dbC3 = .ok
      { probability := 43 / 10, compAdverse := 14 / 100, compMedia := 0,
        compInspections := 0, compPastActions := 0 } ∧
      (0 : ℚ) ≤ 43 / 10 ∧ (43 / 10 : ℚ) ≤ 100 := by
  have hval : estimate_probability 1 dbC3 = .ok
      { probability := 43 / 10, compAdverse := 14 / 100, compMedia := 0,
        compInspections := 0, compPastActions := 0 } := by
    have hfind : dbC3.events.find? (fun e => e.id == 1) = some eventC3 := by decide
    have hcomp : strTrim (pyOrStr eventC3.company "") = "A" := by decide
    have hc1 : (dbC3.historicalEvents.filter (fun h =>
        strLower h.company == strLower "A" &&
        (strLower h.eventType == "adverse" || strLower h.eventType == "safety"))).length
        = 1 := by decide
    have hc2 : (dbC3.historicalEvents.filter (fun h =>
        strLower h.company == strLower "A")).length = 7 := by decide
    have hc3 : (dbC3.events.filter (fun e =>
        (match e.company with
         | some c => strLower c == strLower "A"
         | none => false) &&
        (e.source == "Serper" || e.source == "News"))).length = 0 := by decide
    have hc4 : (dbC3.historicalEvents.filter (fun h =>
        strLower h.company == strLower "A" &&
          strLower h.eventType == "inspection")).length = 0 := by decide
    have hc5 : (dbC3.regulatoryActions.filter (fun a =>
        strLower a.company == strLower "A")).length = 0 := by decide
    simp only [estimate_probability, hfind, hcomp]
    rw [if_neg (by decide : ¬ ("A" = ""))]
    rw [hc1, hc2, hc3, hc4, hc5]
    norm_num [pyRound, pyRoundInt]
  obtain ⟨p, hp, hprob, hrest⟩ :=
    estimate_probability_formula 1 dbC3 eventC3 (by decide) (by decide)
  have hpp : p.probability = 43 / 10 := by
    rw [hval] at hp
    have := hp.symm
    simp only [EstResult.ok.injEq] at this
    rw [this]
  refine ⟨hval, ?_, ?_⟩
  · have h := hrest.2.2.2.2.2.2.2.2.1
    rw [hpp] at h
    exact h
  · have h := hrest.2.2.2.2.2.2.2.2.2.1
    rw [hpp] at h
    exact h

/-- Counterexample for C3 as stated: the returned probability (`4.3`) is the
ROUNDED weighted score; it differs from the claim's exact
`100 × (0.30·(1/7) + 0.20·0 + 0.20·0 + 0.30·0) = 30/7`. -/
theorem estimate_probability_rounding_cex :
    estimate_probability 1 dbC3 = .ok
      { probability := 43 / 10, compAdverse := 14 / 100, compMedia := 0,
        compInspections := 0, compPastActions := 0 } ∧
      (43 / 10 : ℚ)
        ≠ 100 * (30 / 100 * (1 / 7) + 20 / 100 * 0 + 20 / 100 * 0 + 30 / 100 * 0) := by
  constructor
  · have hfind : dbC3.events.find? (fun e => e.id == 1) = some eventC3 := by decide
    have hcomp : strTrim (pyOrStr eventC3.company "") = "A" := by decide
    have hc1 : (dbC3.historicalEvents.filter (fun h =>
        strLower h.company == strLower "A" &&
        (strLower h.eventType == "adverse" || strLower h.eventType == "safety"))).length
        = 1 := by decide
    have hc2 : (dbC3.historicalEvents.filter (fun h =>
        strLower h.company == strLower "A")).length = 7 := by decide
    have hc3 : (dbC3.events.filter (fun e =>
        (match e.company with
         | some c => strLower c == strLower "A"
         | none => false) &&
        (e.source == "Serper" || e.source == "News"))).length = 0 := by decide
    have hc4 : (dbC3.historicalEvents.filter (fun h =>
        strLower h.company == strLower "A" &&
          strLower h.eventType == "inspection")).length = 0 := by decide
    have hc5 : (dbC3.regulatoryActions.filter (fun a =>
        strLower a.company == strLower "A")).length = 0 := by decide
    simp only [estimate_probability, hfind, hcomp]
    rw [if_neg (by decide : ¬ ("A" = ""))]
    rw [hc1, hc2, hc3, hc4, hc5]
    norm_num [pyRound, pyRoundInt]
  · norm_num

/-! ## Claim C5: the timeline window -/

theorem ratVariance_nonneg (l : List ℤ) : 0 ≤ ratVariance l := by
  unfold ratVariance
  apply div_nonneg _ (by positivity)
  apply List.sum_nonneg
  intro x hx
  simp only [List.mem_map] at hx
  obtain ⟨d, _, rfl⟩ := hx
  positivity

theorem realTrunc_max_one (x : ℝ) : realTrunc (max x 1) = max (realTrunc x) 1 := by
  unfold realTrunc
  rcases le_or_lt 1 x with h | h
  · rw [max_eq_left h, if_pos (by linarith : (0 : ℝ) ≤ x)]
    have h1 : (1 : ℤ) ≤ ⌊x⌋ := by
      rw [Int.le_floor]
      exact_mod_cast h
    exact (max_eq_left h1).symm
  · rw [max_eq_right h.le, if_pos (by norm_num : (0:ℝ) ≤ 1), Int.floor_one]
    split_ifs with hx
    · have h1 : ⌊x⌋ ≤ 1 := by
        have h2 := Int.floor_le_floor h.le
        rwa [Int.floor_one] at h2
      exact (max_eq_right h1).symm
    · have h1 : ⌈x⌉ ≤ 1 := by
        have h2 := Int.ceil_le_ceil h.le
        rwa [Int.ceil_one] at h2
      exact (max_eq_right h1).symm

/-- Claim C5: for every signal whose gathered days_to_action sample is
non-empty, `predict_days` returns the window
`[trunc (max (mean − std, 1)), trunc (mean + std)]` with `std` the population
standard deviation (both bounds truncated to integers); in particular the
sample `[60, 90, 120]` has mean 90 and yields the window `[65, 114]`. -/
theorem predict_days_window :
    (∀ (sid : ℕ) (db : DB) (ev : Event),
        db.events.find? (fun e => e.id == sid) = some ev →
        timelineSample ev db ≠ [] →
        predict_days sid db = .ok
          { expectedDaysMin := realTrunc (max ((ratMean (timelineSample ev db) : ℝ)
              - Real.sqrt (ratVariance (timelineSample ev db) : ℝ)) 1),
            expectedDaysMax := realTrunc ((ratMean (timelineSample ev db) : ℝ)
              + Real.sqrt (ratVariance (timelineSample ev db) : ℝ)) }) ∧
      ratMean [60, 90, 120] = 90 ∧
      predict_days 1 dbC5 = .ok { expectedDaysMin := 65, expectedDaysMax := 114 } := by
  refine ⟨?_, by norm_num [ratMean], ?_⟩
  · intro sid db ev hfind hne
    have hv : (0 : ℚ) ≤ ratVariance (timelineSample ev db) := ratVariance_nonneg _
    simp only [predict_days, hfind]
    rw [if_neg (by simp [List.isEmpty_iff, hne])]
    rw [truncSubSqrt_eq _ _ hv, truncAddSqrt_eq _ _ hv, realTrunc_max_one]
  · have hfind : dbC5.events.find? (fun e => e.id == 1) = some eventC5 := by decide
    have hs : timelineSample eventC5 dbC5 = [60, 90, 120] := by decide
    simp only [predict_days, hfind, hs]
    rw [if_neg (by decide)]
    have hm : ratMean [60, 90, 120] = 90 := by norm_num [ratMean]
    have hvr : ratVariance [60, 90, 120] = 600 := by norm_num [ratVariance, ratMean]
    rw [hm, hvr]
    have ht : (600 : ℤ).toNat = 600 := rfl
    have hsq : Nat.sqrt 600 = 24 := by
      have hl : 24 ≤ Nat.sqrt 600 := Nat.le_sqrt.mpr (by norm_num)
      have hu : Nat.sqrt 600 < 25 := Nat.sqrt_lt.mpr (by norm_num)
      omega
    have h1 : truncSubSqrt 90 600 = 65 := by norm_num [truncSubSqrt, ht, hsq]
    have h2 : truncAddSqrt 90 600 = 114 := by norm_num [truncAddSqrt, ht, hsq]
    rw [h1, h2]
    norm_num

/-- Witness for C5: applying the window theorem at the `[60, 90, 120]` sample;
the window in closed form is `[trunc (max (90 − √600, 1)), trunc (90 + √600)]`,
which evaluates to `[65, 114]`. -/
theorem predict_days_window_witness :
    predict_days 1 dbC5 = .ok
      { expectedDaysMin := realTrunc (max ((90 : ℝ) - Real.sqrt 600) 1),
        expectedDaysMax := realTrunc ((90 : ℝ) + Real.sqrt 600) } ∧
      predict_days 1 dbC5 = .ok { expectedDaysMin := 65, expectedDaysMax := 114 } := by
  constructor
  · have h := predict_days_window.1 1 dbC5 eventC5 (by decide) (by decide)
    have hs : timelineSample eventC5 dbC5 = [60, 90, 120] := by decide
    rw [hs] at h
    have hm : ratMean [60, 90, 120] = 90 := by norm_num [ratMean]
    have hvr : ratVariance [60, 90, 120] = 600 := by norm_num [ratVariance, ratMean]
    rw [hm, hvr] at h
    rw [h]
    norm_num
  · exact predict_days_window.2.2

/-! ## Claim C1: insufficient-data gating of the orchestrator -/

/-- Claim C1: for every signal whose Event has an empty (or whitespace-only)
company, `run_risk_engine` returns InsufficientData immediately with the
database unchanged; and whenever one of the three estimators (checked in the
order financial, regulatory, timeline) returns InsufficientData, that exact
message is propagated as the orchestrator's return value and the database —
in particular the `risk_models` table — is unchanged: persistence happens only
after all three succeed. -/
theorem run_risk_engine_gating (cfg : Config) (sid : ℕ) (db : DB) (now : ℕ) (ev : Event)
    (hfind : db.events.find? (fun e => e.id == sid) = some ev) :
    (strTrim (pyOrStr ev.company "") = "" →
        run_risk_engine cfg sid db now
          = (.insufficientData "Company or drug not identified for this signal.", db)) ∧
      (∀ m, strTrim (pyOrStr ev.company "") ≠ "" →
        estimate_loss cfg sid db = .insufficient m →
        run_risk_engine cfg sid db now = (.insufficientData m, db)) ∧
      (∀ fin m, strTrim (pyOrStr ev.company "") ≠ "" →
        estimate_loss cfg sid db = .ok fin →
        estimate_probability sid db = .insufficient m →
        run_risk_engine cfg sid db now = (.insufficientData m, db)) ∧
      (∀ fin reg m, strTrim (pyOrStr ev.company "") ≠ "" →
        estimate_loss cfg sid db = .ok fin →
        estimate_probability sid db = .ok reg →
        predict_days sid db = .insufficient m →
        run_risk_engine cfg sid db now = (.insufficientData m, db)) := by
  refine ⟨?_, ?_, ?_, ?_⟩
  · intro h
    simp only [run_risk_engine, hfind]
    rw [if_pos h]
  · intro m hc hl
    simp only [run_risk_engine, hfind, hl]
    rw [if_neg hc]
  · intro fin m hc hl hr
    simp only [run_risk_engine, hfind, hl, hr]
    rw [if_neg hc]
  · intro fin reg m hc hl hr ht
    simp only [run_risk_engine, hfind, hl, hr, ht]
    rw [if_neg hc]

/-- Witness for C1: a whitespace-only company is gated immediately, and a
missing financial profile is propagated verbatim; in both cases the database
is returned unchanged. -/
theorem run_risk_engine_gating_witness :
    run_risk_engine cfg0 1 dbC1a 7
        = (.insufficientData "Company or drug not identified for this signal.", dbC1a) ∧
      run_risk_engine cfg0 1 dbC1b 7
        = (.insufficientData "No financial profile for A", dbC1b) := by
  constructor
  · exact (run_risk_engine_gating cfg0 1 dbC1a 7 eventC1a (by decide)).1 (by decide)
  · have hloss : estimate_loss cfg0 1 dbC1b = .insufficient "No financial profile for A" := by
      have hfind : dbC1b.events.find? (fun e => e.id == 1) = some eventC1b := by decide
      have hcomp : strTrim (pyOrStr eventC1b.company "") = "A" := by decide
      simp only [estimate_loss, hfind, hcomp, get_demo_company, cfg0]
      rw [if_neg (by decide : ¬ ("A" = ""))]
      rfl
    exact (run_risk_engine_gating cfg0 1 dbC1b 7 eventC1b (by decide)).2.1
      "No financial profile for A" (by decide) hloss

/-! ## Claim C2: the loss band -/

theorem upsertRiskModel_find (sid : ℕ) (row : RiskModel) (rows : List RiskModel)
    (h : row.signalId = sid) :
    (upsertRiskModel sid row rows).find? (fun r => r.signalId == sid) = some row := by
  induction rows with
  | nil =>
    simp [upsertRiskModel, List.find?_cons_of_pos, h]
  | cons r rs ih =>
    by_cases hr : r.signalId = sid
    · simp only [upsertRiskModel]
      rw [if_pos hr]
      simp [List.find?_cons_of_pos, h]
    · simp only [upsertRiskModel]
      rw [if_neg hr]
      rw [List.find?_cons_of_neg _ (by simp [hr])]
      exact ih

/-- Claim C2 (amended): for every successful computation, the returned and
persisted band is `loss_min = round(loss_base × 0.8, 4)`,
`loss_max = round(loss_base × 1.2, 4)`; whenever `loss_base ≥ 0` this gives
`loss_min ≤ loss_max`, and the UNROUNDED bounds have ratio exactly 1.5 for
`loss_base ≠ 0`.  The claim's strict inequality `loss_max > loss_min` (and the
exact returned ratio 1.5) fails: a successful run can have `loss_base = 0`, in
which case both bounds are `0` (see the counterexample). -/
theorem run_risk_engine_loss_band (cfg : Config) (sid : ℕ) (db : DB) (now : ℕ)
    (p : AnalysisPayload) (db' : DB) (b : ℚ)
    (hrun : run_risk_engine cfg sid db now = (.ok p, db'))
    (hbase : lossBaseOf cfg sid db = some b) :
    p.lossMin = pyRound 4 (b * (8 / 10)) ∧
      p.lossMax = pyRound 4 (b * (12 / 10)) ∧
      (0 ≤ b → p.lossMin ≤ p.lossMax) ∧
      (b ≠ 0 → (b * (12 / 10)) / (b * (8 / 10)) = 3 / 2) ∧
      ∃ row, db'.riskModels.find? (fun r => r.signalId == sid) = some row ∧
        row.lossMin = p.lossMin ∧ row.lossMax = p.lossMax := by
  unfold run_risk_engine at hrun
  split at hrun
  · exact absurd hrun (by simp)
  · rename_i ev hfind
    dsimp only at hrun
    by_cases hc : strTrim (pyOrStr ev.company "") = ""
    · rw [if_pos hc] at hrun
      exact absurd hrun (by simp)
    · rw [if_neg hc] at hrun
      split at hrun
      · exact absurd hrun (by simp)
      · exact absurd hrun (by simp)
      · exact absurd hrun (by simp)
      · exact absurd hrun (by simp)
      · exact absurd hrun (by simp)
      · exact absurd hrun (by simp)
      · rename_i fin reg tl hl hr ht
        unfold lossBaseOf at hbase
        rw [hl, hr] at hbase
        simp only [Option.some.injEq] at hbase
        injection hrun with h1 h2
        injection h1 with hp
        subst hp
        subst h2
        subst hbase
        refine ⟨rfl, rfl, ?_, ?_, ?_⟩
        · intro hb
          exact pyRound_mono 4 (by nlinarith)
        · intro hb
          rw [div_eq_iff (mul_ne_zero hb (by norm_num))]
          ring
        · exact ⟨_, upsertRiskModel_find sid _ db.riskModels rfl, rfl, rfl⟩

/-- Witness for C2: a successful run with loss base 45 yields the band
`[36, 54]` (= `45 × 0.8`, `45 × 1.2`), with `loss_min ≤ loss_max` obtained
from the band theorem. -/
theorem run_risk_engine_loss_band_witness :
    (run_risk_engine cfg0 1 dbC2w 7).1.lossRange? = some (36, 54) ∧
      lossBaseOf cfg0 1 dbC2w = some 45 ∧ (36 : ℚ) ≤ 54 := by
  have hfind : dbC2w.events.find? (fun e => e.id == 1) = some eventC2 := by decide
  have hcomp : strTrim (pyOrStr eventC2.company "") = "Acme" := by decide
  have h_loss : estimate_loss cfg0 1 dbC2w = .ok
      { revenueUsdM := 1000, impactPct := 3 / 20, currency := "USD", unitScale := "millions",
        market := "US", originalRevenue := 1000, company := "Acme", drugRevenueShare := 1 } := by
    have hprof : dbC2w.profiles.find? (fun p => strLower p.company == strLower "Acme")
        = some profAcme := by
      show List.find? _ [profAcme] = some profAcme
      rw [List.find?_cons_of_pos _ (by decide)]
    have hpd : profileToDict profAcme = some
        { company := "Acme", annualRevenue := 1000, drugRevenueShare := 1,
          currency := "USD", unitScale := "millions", market := "US" } := by
      rw [profileToDict]
      rw [if_pos]
      · rfl
      · refine ⟨by decide, by norm_num [profAcme], by norm_num [profAcme], by decide, by decide,
          by decide⟩
    simp only [estimate_loss, hfind, hcomp, hprof, hpd]
    rw [if_neg (by decide : ¬ ("Acme" = ""))]
    have e1 : strUpper (pyOrStr (some "USD") "USD") = "USD" := by decide
    have e2 : strLower (pyOrStr (some "millions") "millions") = "millions" := by decide
    have e3 : (strLower "Acme" == strLower "Acme") = true := by decide
    simp [e1, e2, e3, dbC2w, pyOrS, to_usd_millions, List.filter, List.filterMap]
    norm_num [pyRound, pyRoundInt]
  have h_reg : estimate_probability 1 dbC2w = .ok
      { probability := 30, compAdverse := 1, compMedia := 0,
        compInspections := 0, compPastActions := 0 } := by
    have e3 : (strLower "Acme" == strLower "Acme") = true := by decide
    have e4 : (strLower "adverse" == "adverse" || strLower "adverse" == "safety") = true := by
      decide
    have e5 : (strLower "adverse" == "inspection") = false := by decide
    have e6 : ((match eventC2.company with
        | some c => strLower c == strLower "Acme"
        | none => false) && (eventC2.source == "Serper" || eventC2.source == "News")) = false := by
      decide
    simp only [estimate_probability, hfind, hcomp]
    rw [if_neg (by decide : ¬ ("Acme" = ""))]
    simp [e3, e4, e5, e6, dbC2w, List.filter]
    norm_num [pyRound, pyRoundInt]
  have h_tl : predict_days 1 dbC2w = .ok { expectedDaysMin := 30, expectedDaysMax := 30 } := by
    have hs : timelineSample eventC2 dbC2w = [30] := by decide
    simp only [predict_days, hfind, hs]
    rw [if_neg (by decide)]
    have hm : ratMean [30] = 30 := by norm_num [ratMean]
    have hv : ratVariance [30] = 0 := by norm_num [ratVariance, ratMean]
    rw [hm, hv]
    have h1 : truncSubSqrt 30 0 = 30 := by norm_num [truncSubSqrt]
    have h2 : truncAddSqrt 30 0 = 30 := by norm_num [truncAddSqrt]
    rw [h1, h2]
    norm_num
  have hbase : lossBaseOf cfg0 1 dbC2w = some 45 := by
    unfold lossBaseOf
    rw [h_loss, h_reg]
    norm_num
  have hval : (run_risk_engine cfg0 1 dbC2w 7).1.lossRange? = some (36, 54) := by
    simp only [run_risk_engine, runPayloadOf, hfind, hcomp, h_loss, h_reg, h_tl]
    rw [if_neg (by decide : ¬ ("Acme" = ""))]
    simp only [RunResult.lossRange?]
    norm_num [pyRound, pyRoundInt]
  refine ⟨hval, hbase, ?_⟩
  rcases hrr : run_risk_engine cfg0 1 dbC2w 7 with ⟨res, db2⟩
  rcases res with m | m | p | m
  · rw [hrr] at hval
    exact absurd hval (by simp [RunResult.lossRange?])
  · rw [hrr] at hval
    exact absurd hval (by simp [RunResult.lossRange?])
  · have hthm := run_risk_engine_loss_band cfg0 1 dbC2w 7 p db2 45 hrr hbase
    have hmono := hthm.2.2.1 (by norm_num)
    rw [hrr] at hval
    simp only [RunResult.lossRange?, Option.some.injEq, Prod.mk.injEq] at hval
    rw [hval.1, hval.2] at hmono
    exact hmono
  · rw [hrr] at hval
    exact absurd hval (by simp [RunResult.lossRange?])

/-- Counterexample for C2 as stated: with an all-zero severity history the run
still SUCCEEDS but has loss base 0, so loss_min = loss_max = 0 — `loss_max`
is not strictly greater than `loss_min` and the returned ratio is not 1.5. -/
theorem run_risk_engine_loss_band_cex :
    (run_risk_engine cfg0 1 dbC2z 7).1.lossRange? = some (0, 0) := by
  have hfind : dbC2z.events.find? (fun e => e.id == 1) = some eventC2 := by decide
  have hcomp : strTrim (pyOrStr eventC2.company "") = "Acme" := by decide
  have h_loss : estimate_loss cfg0 1 dbC2z = .ok
      { revenueUsdM := 1000, impactPct := 0, currency := "USD", unitScale := "millions",
        market := "US", originalRevenue := 1000, company := "Acme", drugRevenueShare := 1 } := by
    have hprof : dbC2z.profiles.find? (fun p => strLower p.company == strLower "Acme")
        = some profAcme := by
      show List.find? _ [profAcme] = some profAcme
      rw [List.find?_cons_of_pos _ (by decide)]
    have hpd : profileToDict profAcme = some
        { company := "Acme", annualRevenue := 1000, drugRevenueShare := 1,
          currency := "USD", unitScale := "millions", market := "US" } := by
      rw [profileToDict]
      rw [if_pos]
      · rfl
      · refine ⟨by decide, by norm_num [profAcme], by norm_num [profAcme], by decide, by decide,
          by decide⟩
    simp only [estimate_loss, hfind, hcomp, hprof, hpd]
    rw [if_neg (by decide : ¬ ("Acme" = ""))]
    have e1 : strUpper (pyOrStr (some "USD") "USD") = "USD" := by decide
    have e2 : strLower (pyOrStr (some "millions") "millions") = "millions" := by decide
    have e3 : (strLower "Acme" == strLower "Acme") = true := by decide
    simp [e1, e2, e3, dbC2z, pyOrS, to_usd_millions, List.filter, List.filterMap]
    norm_num [pyRound, pyRoundInt]
  have h_reg : estimate_probability 1 dbC2z = .ok
      { probability := 30, compAdverse := 1, compMedia := 0,
        compInspections := 0, compPastActions := 0 } := by
    have e3 : (strLower "Acme" == strLower "Acme") = true := by decide
    have e4 : (strLower "adverse" == "adverse" || strLower "adverse" == "safety") = true := by
      decide
    have e5 : (strLower "adverse" == "inspection") = false := by decide
    have e6 : ((match eventC2.company with
        | some c => strLower c == strLower "Acme"
        | none => false) && (eventC2.source == "Serper" || eventC2.source == "News")) = false := by
      decide
    simp only [estimate_probability, hfind, hcomp]
    rw [if_neg (by decide : ¬ ("Acme" = ""))]
    simp [e3, e4, e5, e6, dbC2z, List.filter]
    norm_num [pyRound, pyRoundInt]
  have h_tl : predict_days 1 dbC2z = .ok { expectedDaysMin := 30, expectedDaysMax := 30 } := by
    have hs : timelineSample eventC2 dbC2z = [30] := by decide
    simp only [predict_days, hfind, hs]
    rw [if_neg (by decide)]
    have hm : ratMean [30] = 30 := by norm_num [ratMean]
    have hv : ratVariance [30] = 0 := by norm_num [ratVariance, ratMean]
    rw [hm, hv]
    have h1 : truncSubSqrt 30 0 = 30 := by norm_num [truncSubSqrt]
    have h2 : truncAddSqrt 30 0 = 30 := by norm_num [truncAddSqrt]
    rw [h1, h2]
    norm_num
  simp only [run_risk_engine, runPayloadOf, hfind, hcomp, h_loss, h_reg, h_tl]
  rw [if_neg (by decide : ¬ ("Acme" = ""))]
  simp only [RunResult.lossRange?]
  norm_num [pyRound, pyRoundInt]

/-! ## Claim C9: legacy cached rows -/

/-- Claim C9: when `get_signal_analysis` reads a cached RiskModel row with no
calculation_breakdown in its methodology, an India market and a stored loss
below 10000, it derives the display strings by reconverting the stored values
from INR crores to USD millions on the fly, while returning the stored raw
values untouched and leaving the database — hence every stored field of the
row (loss_min, loss_max, probability, updated_at, explanation_json) —
unchanged. -/
theorem get_signal_analysis_legacy (cfg : Config) (sid : ℕ) (db : DB) (now : ℕ)
    (rm : RiskModel)
    (hfind : db.riskModels.find? (fun r => r.signalId == sid) = some rm)
    (hbd : rm.explanation.calculationBreakdown = none)
    (hmkt : strLower (pyOrStr rm.explanation.market "India") = "india")
    (hlm : rm.lossMin < 10000) :
    ∃ p, get_signal_analysis cfg sid db now = (.ok p, db) ∧
      p.lossDisplayMin = format_loss_with_inr
        (some (to_usd_millions (some rm.lossMin) (some "INR") (some "crores"))) ∧
      p.lossDisplayMax = format_loss_with_inr
        (some (to_usd_millions (some rm.lossMax) (some "INR") (some "crores"))) ∧
      p.lossMin = rm.lossMin ∧ p.lossMax = rm.lossMax ∧
      p.probability = rm.probability ∧ p.expectedDaysMin = rm.expectedDaysMin ∧
      p.expectedDaysMax = rm.expectedDaysMax := by
  have hb1 : rm.explanation.calculationBreakdown.isNone = true := by
    rw [hbd]
    rfl
  have hb2 : (("india" : String) == "india") = true := by decide
  have hb3 : decide (rm.lossMin < 10000) = true := decide_eq_true hlm
  simp only [get_signal_analysis, cachedPayloadOf, hfind, hmkt, hb1, hb2, hb3, Bool.and_self,
    Bool.true_and, Bool.and_true, if_true]
  exact ⟨_, rfl, rfl, rfl, rfl, rfl, rfl, rfl, rfl⟩

/-- Witness for C9: reading the legacy row leaves the database unchanged and
reports the stored raw values; the displays are the INR-crore reconversions. -/
theorem get_signal_analysis_legacy_witness :
    (get_signal_analysis cfg0 1 dbC9 7).2 = dbC9 ∧
      (get_signal_analysis cfg0 1 dbC9 7).1.lossRange? = some (100, 200) := by
  have hfind : dbC9.riskModels.find? (fun r => r.signalId == 1) = some rmC9 := by
    show List.find? _ [rmC9] = some rmC9
    rw [List.find?_cons_of_pos _ (by decide)]
  obtain ⟨p, hp, hd1, hd2, hl1, hl2, hpr, he1, he2⟩ :=
    get_signal_analysis_legacy cfg0 1 dbC9 7 rmC9 hfind rfl (by decide) (by norm_num [rmC9])
  constructor
  · rw [hp]
  · rw [hp]
    simp only [RunResult.lossRange?, hl1, hl2]
    norm_num [rmC9]

/-! ## Claim C6: idempotent caching and forced recompute -/

theorem dbC2w_event_eval : dbC2w.events.find? (fun e => e.id == 1) = some eventC2 := by
  decide

theorem eventC2_company_eval : strTrim (pyOrStr eventC2.company "") = "Acme" := by
  decide

theorem estimate_loss_dbC2w_eval : estimate_loss cfg0 1 dbC2w = .ok
    { revenueUsdM := 1000, impactPct := 3 / 20, currency := "USD", unitScale := "millions",
      market := "US", originalRevenue := 1000, company := "Acme", drugRevenueShare := 1 } := by
  have hprof : dbC2w.profiles.find? (fun p => strLower p.company == strLower "Acme")
      = some profAcme := by
    show List.find? _ [profAcme] = some profAcme
    rw [List.find?_cons_of_pos _ (by decide)]
  have hpd : profileToDict profAcme = some
      { company := "Acme", annualRevenue := 1000, drugRevenueShare := 1,
        currency := "USD", unitScale := "millions", market := "US" } := by
    rw [profileToDict]
    rw [if_pos]
    · rfl
    · refine ⟨by decide, by norm_num [profAcme], by norm_num [profAcme], by decide, by decide,
        by decide⟩
  simp only [estimate_loss, dbC2w_event_eval, eventC2_company_eval, hprof, hpd]
  rw [if_neg (by decide : ¬ ("Acme" = ""))]
  have e1 : strUpper (pyOrStr (some "USD") "USD") = "USD" := by decide
  have e2 : strLower (pyOrStr (some "millions") "millions") = "millions" := by decide
  have e3 : (strLower "Acme" == strLower "Acme") = true := by decide
  simp [e1, e2, e3, dbC2w, pyOrS, to_usd_millions, List.filter, List.filterMap]
  norm_num [pyRound, pyRoundInt]

theorem estimate_probability_dbC2w_eval : estimate_probability 1 dbC2w = .ok
    { probability := 30, compAdverse := 1, compMedia := 0,
      compInspections := 0, compPastActions := 0 } := by
  have e3 : (strLower "Acme" == strLower "Acme") = true := by decide
  have e4 : (strLower "adverse" == "adverse" || strLower "adverse" == "safety") = true := by
    decide
  have e5 : (strLower "adverse" == "inspection") = false := by decide
  have e6 : ((match eventC2.company with
      | some c => strLower c == strLower "Acme"
      | none => false) && (eventC2.source == "Serper" || eventC2.source == "News")) = false := by
    decide
  simp only [estimate_probability, dbC2w_event_eval, eventC2_company_eval]
  rw [if_neg (by decide : ¬ ("Acme" = ""))]
  simp [e3, e4, e5, e6, dbC2w, List.filter]
  norm_num [pyRound, pyRoundInt]

theorem predict_days_dbC2w_eval :
    predict_days 1 dbC2w = .ok { expectedDaysMin := 30, expectedDaysMax := 30 } := by
  have hs : timelineSample eventC2 dbC2w = [30] := by decide
  simp only [predict_days, dbC2w_event_eval, hs]
  rw [if_neg (by decide)]
  have hm : ratMean [30] = 30 := by norm_num [ratMean]
  have hv : ratVariance [30] = 0 := by norm_num [ratVariance, ratMean]
  rw [hm, hv]
  have h1 : truncSubSqrt 30 0 = 30 := by norm_num [truncSubSqrt]
  have h2 : truncAddSqrt 30 0 = 30 := by norm_num [truncAddSqrt]
  rw [h1, h2]
  norm_num

theorem get_signal_analysis_cached (cfg : Config) (sid : ℕ) (db : DB) (now : ℕ)
    (rm : RiskModel)
    (h : db.riskModels.find? (fun r => r.signalId == sid) = some rm) :
    get_signal_analysis cfg sid db now = (.ok (cachedPayloadOf rm), db) := by
  unfold get_signal_analysis
  rw [h]

theorem run_risk_engine_riskModels_congr (cfg : Config) (sid : ℕ) (db : DB) (now : ℕ)
    (rms : List RiskModel) (ev : Event) (fin : FinPayload) (reg : RegPayload)
    (tl : TimelinePayload)
    (hfind : db.events.find? (fun e => e.id == sid) = some ev)
    (hc : ¬ strTrim (pyOrStr ev.company "") = "")
    (hl : estimate_loss cfg sid db = .ok fin)
    (hr : estimate_probability sid db = .ok reg)
    (ht : predict_days sid db = .ok tl) :
    run_risk_engine cfg sid { db with riskModels := rms } now =
      (.ok (runPayloadOf sid db fin reg tl),
       { db with riskModels := upsertRiskModel sid (runRowOf sid db now fin reg tl) rms }) := by
  have hfind' : ({ db with riskModels := rms } : DB).events.find? (fun e => e.id == sid)
      = some ev := hfind
  have hl' : estimate_loss cfg sid { db with riskModels := rms } = .ok fin := hl
  have hr' : estimate_probability sid { db with riskModels := rms } = .ok reg := hr
  have ht' : predict_days sid { db with riskModels := rms } = .ok tl := ht
  simp only [run_risk_engine, hfind', hl', hr', ht']
  rw [if_neg hc]
  rfl

/-- Claim C6: calling the analysis endpoint twice without any data change
returns identical probability, loss_min/loss_max and expected_days_min/max
values — the cached-read path reproduces exactly the numbers the
fresh-compute path stored — and an explicit force recompute
(`recalculate_risk`) succeeds with the same values, leaving a stored row
that differs from the previous one only in `updated_at`. -/
theorem get_signal_analysis_idempotent (cfg : Config) (sid : ℕ) (db : DB)
    (n1 n2 n3 : ℕ) (p1 : AnalysisPayload) (db1 : DB)
    (hnone : db.riskModels.find? (fun r => r.signalId == sid) = none)
    (h1 : get_signal_analysis cfg sid db n1 = (.ok p1, db1)) :
    (∃ p2, get_signal_analysis cfg sid db1 n2 = (.ok p2, db1) ∧
        p2.probability = p1.probability ∧ p2.lossMin = p1.lossMin ∧
        p2.lossMax = p1.lossMax ∧ p2.expectedDaysMin = p1.expectedDaysMin ∧
        p2.expectedDaysMax = p1.expectedDaysMax) ∧
    ∃ p3 db3 r1 r3, recalculate_risk cfg sid db1 n3 = (.ok p3, db3) ∧
        db1.riskModels.find? (fun r => r.signalId == sid) = some r1 ∧
        db3.riskModels.find? (fun r => r.signalId == sid) = some r3 ∧
        r3 = { r1 with updatedAt := n3 } ∧
        p3.probability = p1.probability ∧ p3.lossMin = p1.lossMin ∧
        p3.lossMax = p1.lossMax ∧ p3.expectedDaysMin = p1.expectedDaysMin ∧
        p3.expectedDaysMax = p1.expectedDaysMax := by
  unfold get_signal_analysis at h1
  split at h1
  · rename_i rm hfound
    rw [hnone] at hfound
    exact absurd hfound (by simp)
  · unfold run_risk_engine at h1
    split at h1
    · exact absurd h1 (by simp)
    · rename_i ev hfind
      dsimp only at h1
      by_cases hc : strTrim (pyOrStr ev.company "") = ""
      · rw [if_pos hc] at h1
        exact absurd h1 (by simp)
      · rw [if_neg hc] at h1
        split at h1
        · exact absurd h1 (by simp)
        · exact absurd h1 (by simp)
        · exact absurd h1 (by simp)
        · exact absurd h1 (by simp)
        · exact absurd h1 (by simp)
        · exact absurd h1 (by simp)
        · rename_i fin reg tl hl hr ht
          injection h1 with ha hb
          injection ha with hp
          subst hp
          subst hb
          constructor
          · exact ⟨cachedPayloadOf (runRowOf sid db n1 fin reg tl),
              get_signal_analysis_cached cfg sid _ n2 _
                (upsertRiskModel_find sid _ db.riskModels rfl),
              rfl, rfl, rfl, rfl, rfl⟩
          · exact ⟨runPayloadOf sid db fin reg tl, _,
              runRowOf sid db n1 fin reg tl, runRowOf sid db n3 fin reg tl,
              run_risk_engine_riskModels_congr cfg sid db n3 _ ev fin reg tl hfind hc hl hr ht,
              upsertRiskModel_find sid _ db.riskModels rfl,
              upsertRiskModel_find sid _ _ rfl,
              rfl, rfl, rfl, rfl, rfl, rfl⟩

/-- Witness for C6: on the concrete database the first call computes the loss
band `[36, 54]`; the cached second read and a forced recompute both report
exactly the same band. -/
theorem get_signal_analysis_idempotent_witness :
    (get_signal_analysis cfg0 1 dbC2w 7).1.lossRange? = some (36, 54) ∧
    (get_signal_analysis cfg0 1 (get_signal_analysis cfg0 1 dbC2w 7).2 8).1.lossRange?
      = some (36, 54) ∧
    (recalculate_risk cfg0 1 (get_signal_analysis cfg0 1 dbC2w 7).2 9).1.lossRange?
      = some (36, 54) := by
  have hnone : dbC2w.riskModels.find? (fun r => r.signalId == 1) = none := rfl
  have hval0 : (run_risk_engine cfg0 1 dbC2w 7).1.lossRange? = some (36, 54) := by
    simp only [run_risk_engine, runPayloadOf, dbC2w_event_eval, eventC2_company_eval,
      estimate_loss_dbC2w_eval, estimate_probability_dbC2w_eval, predict_days_dbC2w_eval]
    rw [if_neg (by decide : ¬ ("Acme" = ""))]
    simp only [RunResult.lossRange?]
    norm_num [pyRound, pyRoundInt]
  have hga : get_signal_analysis cfg0 1 dbC2w 7 = run_risk_engine cfg0 1 dbC2w 7 := by
    unfold get_signal_analysis
    rw [hnone]
  rcases hrr : get_signal_analysis cfg0 1 dbC2w 7 with ⟨res, db1⟩
  have hval : res.lossRange? = some (36, 54) := by
    rw [← hga, hrr] at hval0
    exact hval0
  rcases res with m | m | p1 | m
  · exact absurd hval (by simp [RunResult.lossRange?])
  · exact absurd hval (by simp [RunResult.lossRange?])
  · obtain ⟨⟨p2, h2, _, hp2lm, hp2lx, _, _⟩,
      p3, db3, r1, r3, hrec, _, _, _, _, hp3lm, hp3lx, _, _⟩ :=
      get_signal_analysis_idempotent cfg0 1 dbC2w 7 8 9 p1 db1 hnone hrr
    simp only [RunResult.lossRange?, Option.some.injEq, Prod.mk.injEq] at hval
    refine ⟨?_, ?_, ?_⟩
    · simp only [RunResult.lossRange?]
      rw [hval.1, hval.2]
    · simp only [h2, RunResult.lossRange?]
      rw [hp2lm, hp2lx, hval.1, hval.2]
    · simp only [hrec, RunResult.lossRange?]
      rw [hp3lm, hp3lx, hval.1, hval.2]
  · exact absurd hval (by simp [RunResult.lossRange?])
